import Mathlib

/-!
Verification of the collection/orchestration layer of `scanner/scan.py`
(linux_systemscan).  The Python functions are shallowly embedded as pure
Lean functions over an explicit environment (`Env`) of API / SSH oracles:
every external call that Python performs (Proxmox REST calls, SSH command
execution, Home Assistant REST calls, the local docker subprocess) is a
field of `Env` returning `Except String _` — `.error` models a raised
Python exception, `.ok` a successful response.  The mutable
`errors_list` is threaded explicitly: each embedded function takes the
current error list and returns the list with its appended entries, in
append order.  Python dictionaries that are iterated are modelled as
association lists in insertion order.
-/

set_option autoImplicit false

namespace SystemScan

/-! ## Python string primitives

`str.strip`, `str.split`, `str.startswith`, `str.replace` and the `in`
substring test are modelled on character lists with structural (fuel)
recursion, so that every definition evaluates under `decide`. -/

/-- Characters stripped by Python `str.strip()`. -/
def pyIsSpace (c : Char) : Bool :=
  c == ' ' || c == '\t' || c == '\n' || c == '\r' || c == Char.ofNat 11 || c == Char.ofNat 12

/-- Python `s.strip()`. -/
def pyStrip (s : String) : String :=
  String.mk (((s.toList.dropWhile pyIsSpace).reverse.dropWhile pyIsSpace).reverse)

/-- Left-to-right non-overlapping split on a non-empty separator. -/
def pySplitAux (sep : List Char) : Nat → List Char → List Char → List (List Char)
  | _, [], cur => [cur.reverse]
  | 0, cs, cur => [cur.reverse ++ cs]
  | fuel + 1, c :: cs, cur =>
    if sep.isPrefixOf (c :: cs) then
      cur.reverse :: pySplitAux sep fuel ((c :: cs).drop sep.length) []
    else
      pySplitAux sep fuel cs (c :: cur)

/-- Python `s.split(sep)` for a non-empty separator. -/
def pySplit (s sep : String) : List String :=
  match sep.toList with
  | [] => [s]
  | sl => (pySplitAux sl (s.toList.length + 1) s.toList []).map String.mk

/-- Python `s.startswith(pre)`. -/
def pyStartsWith (s pre : String) : Bool :=
  pre.toList.isPrefixOf s.toList

/-- Python `s.replace(pat, rep)` for a non-empty pattern, on char lists. -/
def pyReplaceAux (pat rep : List Char) : Nat → List Char → List Char
  | _, [] => []
  | 0, cs => cs
  | fuel + 1, c :: cs =>
    if pat.isPrefixOf (c :: cs) then
      rep ++ pyReplaceAux pat rep fuel ((c :: cs).drop pat.length)
    else
      c :: pyReplaceAux pat rep fuel cs

/-- Python `s.replace(pat, rep)` for a non-empty pattern. -/
def pyReplace (s pat rep : String) : String :=
  match pat.toList with
  | [] => s
  | pl => String.mk (pyReplaceAux pl rep.toList (s.toList.length + 1) s.toList)

/-- Python `pat in s` substring test (for non-empty `pat`). -/
def pyIn (pat s : String) : Bool :=
  (pySplit s pat).length != 1

/-! ## Data model: the record dictionaries produced by the scanner -/

/-- One entry of the shared `errors_list` (`scan_errors` row). -/
structure ScanError where
  scan_id : Nat
  host_ip : String
  component : String
  error_message : String
  error_detail : String
  deriving DecidableEq

/-- `result['host']` dictionary built in `scan_proxmox_host`. -/
structure HostInfo where
  ip_address : String
  hostname : String
  pve_version : String
  node_name : String
  status : String
  uptime_seconds : Nat
  cpu_count : Nat
  cpu_usage : Nat
  mem_total : Nat
  mem_used : Nat
  disk_total : Nat
  disk_used : Nat
  kernel_version : Option String
  deriving DecidableEq

/-- A `result['vms']` entry. -/
structure VmRecord where
  host_ip : String
  node_name : String
  vmid : Nat
  name : String
  status : String
  tags : String
  is_template : Nat
  cpu_count : Nat
  cpu_usage : Nat
  mem_total : Nat
  mem_used : Nat
  disk_total : Nat
  disk_used : Nat
  disk_read : Nat
  disk_write : Nat
  net_in : Nat
  net_out : Nat
  uptime_seconds : Nat
  ip_address : Option String
  deriving DecidableEq

/-- A `result['lxcs']` entry. -/
structure LxcRecord where
  host_ip : String
  node_name : String
  vmid : Nat
  name : String
  status : String
  cpu_count : Nat
  cpu_usage : Nat
  mem_total : Nat
  mem_used : Nat
  disk_total : Nat
  disk_used : Nat
  disk_read : Nat
  disk_write : Nat
  net_in : Nat
  net_out : Nat
  uptime_seconds : Nat
  ip_address : Option String
  deriving DecidableEq

/-- A `result['docker']` entry (WorkloadRecord; also used for HA add-ons). -/
structure DockerRecord where
  host_ip : String
  host_name : String
  container_id : String
  name : String
  image : String
  status : String
  state : String
  ports : String
  created_at : String
  networks : String
  mounts : String
  deriving DecidableEq

/-- A `result['storage']` entry. -/
structure StorageRecord where
  host_ip : String
  node_name : String
  storage_name : String
  storage_type : String
  content : String
  total_bytes : Nat
  used_bytes : Nat
  shared : Nat
  status : String
  deriving DecidableEq

/-- A `result['network']` entry. -/
structure NetworkRecord where
  host_ip : String
  host_name : String
  interface_name : String
  ip_address : String
  type : String
  active : Nat
  bridge_ports : String
  deriving DecidableEq

/-- The per-host `result` dictionary returned by `scan_proxmox_host`. -/
structure HostResult where
  host : Option HostInfo
  vms : List VmRecord
  lxcs : List LxcRecord
  docker : List DockerRecord
  storage : List StorageRecord
  network : List NetworkRecord
  deriving DecidableEq

/-! ## Parsed API response shapes -/

/-- One element of the QEMU guest agent `ip-addresses` list. A missing
`ip-address` key is `none`: the source indexes `addr['ip-address']`,
which raises there. -/
structure AgentAddr where
  ipAddressType : Option String
  ipAddress : Option String
  deriving DecidableEq

/-- One interface of the QEMU agent `network-get-interfaces` result. -/
structure AgentIface where
  name : Option String
  ipAddresses : List AgentAddr
  deriving DecidableEq

/-- One entry of the LXC `/interfaces` endpoint. -/
structure LxcIface where
  name : Option String
  inet : Option String
  deriving DecidableEq

/-- One entry of the `/nodes` listing. -/
structure NodeData where
  node : Option String
  status : Option String
  uptime : Option Nat
  maxcpu : Option Nat
  cpu : Option Nat
  maxmem : Option Nat
  mem : Option Nat
  maxdisk : Option Nat
  disk : Option Nat
  deriving DecidableEq

/-- One entry of the `/cluster/resources` listing. -/
structure ResourceData where
  type : Option String
  vmid : Option Nat
  name : Option String
  status : Option String
  tags : Option String
  template : Option Nat
  maxcpu : Option Nat
  cpu : Option Nat
  maxmem : Option Nat
  mem : Option Nat
  maxdisk : Option Nat
  disk : Option Nat
  diskread : Option Nat
  diskwrite : Option Nat
  netin : Option Nat
  netout : Option Nat
  uptime : Option Nat
  storage : Option String
  plugintype : Option String
  content : Option String
  shared : Option Nat
  deriving DecidableEq

/-- One entry of the `/nodes/{node}/network` listing. -/
structure NetIfaceData where
  iface : Option String
  address : Option String
  cidr : Option String
  type : Option String
  active : Option Nat
  bridge_ports : Option String
  deriving DecidableEq

/-- Attributes of a Home Assistant state object (`u.get('attributes', {})`). -/
structure HaAttrs where
  title : Option String
  installed_version : Option String
  latest_version : Option String
  deriving DecidableEq

/-- One Home Assistant state object. `entity_id` and `state` are indexed
without a default in the source, so they are required fields here. -/
structure HaState where
  entity_id : String
  state : String
  attributes : HaAttrs
  deriving DecidableEq

/-! ## Configuration -/

/-- One entry of `config['proxmox_hosts']`. -/
structure HostCfg where
  ip : String
  port : Option Nat
  user : String
  password : String
  deriving DecidableEq

/-- `config['ssh_credentials']`. `alt_username = some ""` models an
empty configured value (falsy in Python). -/
structure SshConfig where
  username : String
  alt_username : Option String
  password : String
  port : Option Nat
  timeout : Option Nat
  deriving DecidableEq

/-- `config['scan_options']` plus the `skip_docker_scan` list that `main`
injects into it. -/
structure ScanOptions where
  scan_network : Option Bool
  scan_docker : Option Bool
  ssh_into_guests : Option Bool
  skip_docker_scan : List String
  deriving DecidableEq

/-- One entry of `config['homeassistant']`. -/
structure HaCfg where
  ip : String
  port : Option Nat
  token : String
  protocol : Option String
  deriving DecidableEq

/-- The relevant part of `config.json`. -/
structure Config where
  proxmox_hosts : List HostCfg
  ssh_credentials : SshConfig
  homeassistant : List HaCfg
  scan_options : ScanOptions
  skip_docker_scan : List String

/-! ## Environment of external calls

Each field models one external request the scanner can make, keyed by
the arguments the source passes to it.  `.error e` models a raised
exception whose `str()` is `e`. -/

structure Env where
  auth : String → Nat → String → String → Except String (String × String)
  version : String → Nat → String → Except String (Option String)
  nodes : String → Nat → String → Except String (List NodeData)
  resources : String → Nat → String → Except String (List ResourceData)
  networkIfaces : String → Nat → String → String → Except String (Option (List NetIfaceData))
  agentIfaces : String → Nat → String → String → Option Nat → Except String (Option (List AgentIface))
  lxcConfig : String → Nat → String → String → Option Nat → Except String (List (String × String))
  lxcIfaces : String → Nat → String → String → Option Nat → Except String (Option (List LxcIface))
  ssh : String → String → String → String → Nat → Nat → Except String String
  haConfig : String → Nat → Except String (Option String)
  haStates : String → Nat → Except String (List HaState)
  localInfoRc : Except String Int
  localPs : Except String String
  localHostname : String

/-- An environment in which every external call fails. -/
def downEnv : Env where
  auth := fun _ _ _ _ => .error "down"
  version := fun _ _ _ => .error "down"
  nodes := fun _ _ _ => .error "down"
  resources := fun _ _ _ => .error "down"
  networkIfaces := fun _ _ _ _ => .error "down"
  agentIfaces := fun _ _ _ _ _ => .error "down"
  lxcConfig := fun _ _ _ _ _ => .error "down"
  lxcIfaces := fun _ _ _ _ _ => .error "down"
  ssh := fun _ _ _ _ _ _ => .error "down"
  haConfig := fun _ _ => .error "down"
  haStates := fun _ _ => .error "down"
  localInfoRc := .error "down"
  localPs := .error "down"
  localHostname := "localhost"

/-! ## `ssh_exec` / `try_ssh_exec` -/

/-- `ssh_exec`: the raw SSH call, with the decoded stdout stripped. -/
def sshExecM (env : Env) (ip user password command : String) (port timeout : Nat) :
    Except String String :=
  match env.ssh ip user password command port timeout with
  | .ok out => .ok (pyStrip out)
  | .error e => .error e

/-- The ordered credential list of `try_ssh_exec`: primary username, then
the alternate only when it is truthy and differs from the primary. -/
def usersToTry (sc : SshConfig) : List String :=
  sc.username :: (match sc.alt_username with
    | some a => if a ≠ "" ∧ a ≠ sc.username then [a] else []
    | none => [])

/-- The attempt `try_ssh_exec` makes for one username. -/
def attemptOf (env : Env) (ip : String) (sc : SshConfig) (command u : String) :
    Except String String :=
  sshExecM env ip u sc.password command (sc.port.getD 22) (sc.timeout.getD 10)

/-- The `for user in users_to_try` loop: first success wins, otherwise the
last error is remembered. -/
def sshAttempts (env : Env) (ip : String) (sc : SshConfig) (command : String) :
    List String → String → Option String × String
  | [], last => (none, last)
  | u :: rest, last =>
    match attemptOf env ip sc command u with
    | .ok out => (some out, last)
    | .error e => sshAttempts env ip sc command rest e

/-- The aggregated failure message of `try_ssh_exec`. -/
def sshFailMessage (ip : String) (users : List String) (lastErr : String) : String :=
  "SSH to " ++ ip ++ " failed (tried: " ++ String.intercalate ", " users ++ "): " ++ lastErr

/-- `try_ssh_exec`: try each credential in order; on total failure append
exactly one aggregated error. -/
def trySshExec (env : Env) (ip : String) (sc : SshConfig) (command : String)
    (errs : List ScanError) (scanId : Nat) (component : String) :
    Option String × List ScanError :=
  let users := usersToTry sc
  match sshAttempts env ip sc command users "" with
  | (some out, _) => (some out, errs)
  | (none, last) =>
    (none, errs ++ [⟨scanId, ip, component, sshFailMessage ip users last, last⟩])

/-! ## Claims C2 and C10 -/

theorem sshAttempts_all_fail (env : Env) (ip : String) (sc : SshConfig) (command : String) :
    ∀ (us : List String) (last : String), us ≠ [] →
      (∀ u ∈ us, ∃ e, attemptOf env ip sc command u = .error e) →
      ∃ lastE, attemptOf env ip sc command (us.getLastD "") = .error lastE ∧
        sshAttempts env ip sc command us last = (none, lastE)
  | [], _, h, _ => absurd rfl h
  | [u], last, _, hall => by
    obtain ⟨e, he⟩ := hall u (by simp)
    exact ⟨e, by simpa using he, by simp [sshAttempts, he]⟩
  | u :: v :: rest, last, _, hall => by
    obtain ⟨e, he⟩ := hall u (by simp)
    obtain ⟨lastE, h1, h2⟩ :=
      sshAttempts_all_fail env ip sc command (v :: rest) e (by simp)
        (fun w hw => hall w (by simp [hw]))
    refine ⟨lastE, by simpa using h1, ?_⟩
    simp only [sshAttempts, he]
    exact h2

theorem sshAttempts_first_ok (env : Env) (ip : String) (sc : SshConfig) (command : String) :
    ∀ (pre : List String) (u : String) (post : List String) (out last : String),
      (∀ v ∈ pre, ∃ e, attemptOf env ip sc command v = .error e) →
      attemptOf env ip sc command u = .ok out →
      ∃ last2, sshAttempts env ip sc command (pre ++ u :: post) last = (some out, last2)
  | [], u, post, out, last, _, hu => ⟨last, by simp [sshAttempts, hu]⟩
  | v :: pre, u, post, out, last, hpre, hu => by
    obtain ⟨e, he⟩ := hpre v (by simp)
    obtain ⟨last2, h2⟩ :=
      sshAttempts_first_ok env ip sc command pre u post out e
        (fun w hw => hpre w (by simp [hw])) hu
    exact ⟨last2, by simp [sshAttempts, he, h2]⟩

/-- C2: if every credential candidate fails, `try_ssh_exec` records exactly
one aggregated ScanError whose message names all attempted usernames and the
last underlying failure; if some candidate succeeds (all earlier ones
failing), the first success's trimmed stdout is returned and no ScanError is
recorded. -/
theorem claim2 (env : Env) (ip : String) (sc : SshConfig) (command : String)
    (errs : List ScanError) (scanId : Nat) (comp : String) :
    ((∀ u ∈ usersToTry sc, ∃ e, attemptOf env ip sc command u = .error e) →
      ∃ lastE, attemptOf env ip sc command ((usersToTry sc).getLastD "") = .error lastE ∧
        trySshExec env ip sc command errs scanId comp =
          (none, errs ++ [⟨scanId, ip, comp,
            sshFailMessage ip (usersToTry sc) lastE, lastE⟩]))
    ∧ (∀ (pre : List String) (u : String) (post : List String) (raw : String),
        usersToTry sc = pre ++ u :: post →
        (∀ v ∈ pre, ∃ e, attemptOf env ip sc command v = .error e) →
        env.ssh ip u sc.password command (sc.port.getD 22) (sc.timeout.getD 10) = .ok raw →
        trySshExec env ip sc command errs scanId comp = (some (pyStrip raw), errs)) := by
  constructor
  · intro hall
    obtain ⟨lastE, h1, h2⟩ :=
      sshAttempts_all_fail env ip sc command (usersToTry sc) ""
        (by simp [usersToTry]) hall
    exact ⟨lastE, h1, by simp [trySshExec, h2]⟩
  · intro pre u post raw hsplit hpre hok
    have hu : attemptOf env ip sc command u = .ok (pyStrip raw) := by
      simp [attemptOf, sshExecM, hok]
    obtain ⟨last2, h2⟩ :=
      sshAttempts_first_ok env ip sc command pre u post (pyStrip raw) "" hpre hu
    simp [trySshExec, hsplit, h2]

/-- C2 witness: two candidates, both failing, yield exactly one error naming
both usernames and the second (last) failure. -/
theorem claim2_witness :
    trySshExec downEnv "10.0.0.2" ⟨"root", some "admin", "pw", none, none⟩ "uname -r" [] 4 "SSH" =
      (none, [⟨4, "10.0.0.2", "SSH",
        sshFailMessage "10.0.0.2" ["root", "admin"] "down", "down"⟩]) := by
  obtain ⟨lastE, h1, h2⟩ :=
    (claim2 downEnv "10.0.0.2" ⟨"root", some "admin", "pw", none, none⟩ "uname -r" [] 4 "SSH").1
      (fun u _ => ⟨"down", rfl⟩)
  have : lastE = "down" := by
    have h1' := h1
    simp [attemptOf, sshExecM, downEnv] at h1'
    exact h1'.symm
  subst this
  simpa [usersToTry] using h2

/-- C10: the attempted-username list of `try_ssh_exec` never contains
duplicates; the alternate is attempted only when it is configured
(non-empty) and differs from the primary, so an absent or equal alternate
leaves exactly one candidate. -/
theorem claim10 (sc : SshConfig) :
    (usersToTry sc).Nodup
    ∧ ((sc.alt_username = none ∨ sc.alt_username = some sc.username) →
        usersToTry sc = [sc.username])
    ∧ (∀ u, u ∈ usersToTry sc → u ≠ sc.username →
        sc.alt_username = some u ∧ u ≠ "") := by
  refine ⟨?_, ?_, ?_⟩
  · unfold usersToTry
    match h : sc.alt_username with
    | none => simp
    | some a =>
      by_cases ha : a ≠ "" ∧ a ≠ sc.username
      · simp [ha, List.nodup_cons]
        exact fun h' => (ha.2 h'.symm).elim
      · simp [ha]
  · intro h
    rcases h with h | h <;> simp [usersToTry, h]
  · intro u hu hne
    unfold usersToTry at hu
    match h : sc.alt_username with
    | none => simp [h] at hu; exact absurd hu hne
    | some a =>
      rw [h] at hu
      by_cases ha : a ≠ "" ∧ a ≠ sc.username
      · simp [ha] at hu
        rcases hu with hu | hu
        · exact absurd hu hne
        · subst hu; exact ⟨rfl, ha.1⟩
      · simp [ha] at hu
        exact absurd hu hne

/-- C10 witness: with a distinct alternate the list is the duplicate-free
pair; with an equal alternate it is the single primary. -/
theorem claim10_witness :
    (usersToTry ⟨"root", some "admin", "pw", none, none⟩).Nodup
    ∧ usersToTry ⟨"root", some "root", "pw", none, none⟩ = ["root"] := by
  refine ⟨(claim10 ⟨"root", some "admin", "pw", none, none⟩).1, ?_⟩
  exact (claim10 ⟨"root", some "root", "pw", none, none⟩).2.1 (Or.inr rfl)

/-! ## A model of `json.loads` for the container listing

The listing command emits one flat JSON object per line whose keys and
values are strings, so `json.loads` is modelled as a strict parser of
flat string-valued JSON objects; any other input is a parse failure
(`json.JSONDecodeError`). -/

/-- Skip JSON whitespace. -/
def skipWs : List Char → List Char
  | [] => []
  | c :: cs => if c = ' ' ∨ c = '\t' ∨ c = '\n' ∨ c = '\r' then skipWs cs else c :: cs

/-- JSON string escape characters. -/
def escChar (c : Char) : Option Char :=
  if c = '"' then some '"'
  else if c = '\\' then some '\\'
  else if c = '/' then some '/'
  else if c = 'n' then some '\n'
  else if c = 't' then some '\t'
  else if c = 'r' then some '\r'
  else if c = 'b' then some (Char.ofNat 8)
  else if c = 'f' then some (Char.ofNat 12)
  else none

/-- Parse the body of a JSON string after the opening quote; returns the
content and the input after the closing quote. -/
def parseStringChars : List Char → Option (List Char × List Char)
  | [] => none
  | '"' :: cs => some ([], cs)
  | '\\' :: c :: cs => do
    let e ← escChar c
    let (s, r) ← parseStringChars cs
    pure (e :: s, r)
  | ['\\'] => none
  | c :: cs => do
    let (s, r) ← parseStringChars cs
    pure (c :: s, r)

/-- Parse one `"key" : "value"` member. -/
def parsePair (cs : List Char) : Option ((String × String) × List Char) :=
  match skipWs cs with
  | '"' :: r1 =>
    match parseStringChars r1 with
    | none => none
    | some (k, r2) =>
      match skipWs r2 with
      | ':' :: r3 =>
        match skipWs r3 with
        | '"' :: r4 =>
          match parseStringChars r4 with
          | none => none
          | some (v, r5) => some ((String.mk k, String.mk v), r5)
        | _ => none
      | _ => none
  | _ => none

/-- Parse a non-empty comma-separated member list up to the closing brace. -/
def parseMembersAux : Nat → List Char → Option (List (String × String) × List Char)
  | 0, _ => none
  | fuel + 1, cs =>
    match parsePair cs with
    | none => none
    | some (p, r) =>
      match skipWs r with
      | ',' :: r2 =>
        match parseMembersAux fuel r2 with
        | none => none
        | some (ps, r3) => some (p :: ps, r3)
      | '}' :: r2 => some ([p], r2)
      | _ => none

/-- The `json.loads` model: a whole-input flat string-valued JSON object. -/
def parseJsonObj (s : String) : Option (List (String × String)) :=
  match skipWs s.toList with
  | '{' :: r =>
    match skipWs r with
    | '}' :: r2 => if (skipWs r2).isEmpty then some [] else none
    | r1 =>
      match parseMembersAux (r1.length + 1) r1 with
      | none => none
      | some (ps, rest) => if (skipWs rest).isEmpty then some ps else none
  | _ => none

/-- Python `dict.get(k, d)` on a parsed object (duplicate keys: last wins,
as in `json.loads`). -/
def pyGet (c : List (String × String)) (k d : String) : String :=
  match c.reverse.find? (fun p => p.1 == k) with
  | some p => p.2
  | none => d

/-! ## `scan_docker_on_host` -/

/-- The combined docker presence-check command. -/
def dockerCheckCmd : String :=
  "which docker 2>/dev/null && docker info --format \x27\x7b\x7b.ServerVersion\x7d\x7d\x27 2>/dev/null || echo \x27NO_DOCKER\x27"

/-- The container listing command (one JSON object per line). -/
def dockerPsCmd : String :=
  "docker ps -a --format \x27\x7b\x22id\x22:\x22\x7b\x7b.ID\x7d\x7d\x22,\x22name\x22:\x22\x7b\x7b.Names\x7d\x7d\x22,\x22image\x22:\x22\x7b\x7b.Image\x7d\x7d\x22,\x22status\x22:\x22\x7b\x7b.Status\x7d\x7d\x22,\x22state\x22:\x22\x7b\x7b.State\x7d\x7d\x22,\x22ports\x22:\x22\x7b\x7b.Ports\x7d\x7d\x22,\x22created\x22:\x22\x7b\x7b.CreatedAt\x7d\x7d\x22,\x22networks\x22:\x22\x7b\x7b.Networks\x7d\x7d\x22,\x22mounts\x22:\x22\x7b\x7b.Mounts\x7d\x7d\x22\x7d\x27 2>/dev/null"

/-- The record built for one parsed container line. -/
def mkDockerRecord (ip hostName : String) (c : List (String × String)) : DockerRecord where
  host_ip := ip
  host_name := hostName
  container_id := pyGet c "id" ""
  name := pyGet c "name" ""
  image := pyGet c "image" ""
  status := pyGet c "status" ""
  state := pyGet c "state" ""
  ports := pyGet c "ports" ""
  created_at := pyGet c "created" ""
  networks := pyGet c "networks" ""
  mounts := pyGet c "mounts" ""

/-- The `Docker-Parse` error recorded for one malformed line. -/
def dockerParseError (scanId : Nat) (ip line : String) : ScanError :=
  ⟨scanId, ip, "Docker-Parse", "Failed to parse Docker JSON from " ++ ip, line⟩

/-- The per-line loop of `scan_docker_on_host`. -/
def processDockerLines (ip hostName : String) (scanId : Nat) :
    List String → List ScanError → List DockerRecord × List ScanError
  | [], errs => ([], errs)
  | l :: rest, errs =>
    let line := pyStrip l
    if line = "" then processDockerLines ip hostName scanId rest errs
    else
      match parseJsonObj line with
      | some c =>
        let (cs, errs') := processDockerLines ip hostName scanId rest errs
        (mkDockerRecord ip hostName c :: cs, errs')
      | none =>
        processDockerLines ip hostName scanId rest
          (errs ++ [dockerParseError scanId ip line])

/-- `scan_docker_on_host`. -/
def scanDockerOnHost (env : Env) (ip : String) (sc : SshConfig)
    (errs : List ScanError) (scanId : Nat) : List DockerRecord × List ScanError :=
  let (check, errs1) := trySshExec env ip sc dockerCheckCmd errs scanId "Docker"
  match check with
  | none => ([], errs1)
  | some s =>
    if s = "" ∨ pyIn "NO_DOCKER" s then ([], errs1)
    else
      let (out, errs2) := trySshExec env ip sc dockerPsCmd errs1 scanId "Docker"
      match out with
      | none => ([], errs2)
      | some o =>
        if o = "" then ([], errs2)
        else
          let (hn, errs3) := trySshExec env ip sc "hostname" errs2 scanId "Docker"
          let hostName := match hn with
            | some h => if h = "" then ip else h
            | none => ip
          processDockerLines ip hostName scanId (pySplit (pyStrip o) "\n") errs3

/-! ## Claim C3 -/

/-- Whether one raw listing line yields a record. -/
def dockerRecOf (ip hostName : String) (l : String) : Option DockerRecord :=
  if pyStrip l = "" then none
  else (parseJsonObj (pyStrip l)).map (mkDockerRecord ip hostName)

/-- Whether one raw listing line yields a parse error. -/
def dockerErrOf (scanId : Nat) (ip : String) (l : String) : Option ScanError :=
  if pyStrip l = "" then none
  else
    match parseJsonObj (pyStrip l) with
    | some _ => none
    | none => some (dockerParseError scanId ip (pyStrip l))

theorem trySshExec_first_user_ok (env : Env) (ip : String) (sc : SshConfig)
    (command : String) (errs : List ScanError) (scanId : Nat) (comp raw : String)
    (h : env.ssh ip sc.username sc.password command (sc.port.getD 22) (sc.timeout.getD 10) = .ok raw) :
    trySshExec env ip sc command errs scanId comp = (some (pyStrip raw), errs) := by
  have ha : attemptOf env ip sc command sc.username = .ok (pyStrip raw) := by
    simp [attemptOf, sshExecM, h]
  simp [trySshExec, usersToTry, sshAttempts, ha]

theorem processDockerLines_eq (ip hostName : String) (scanId : Nat) :
    ∀ (ls : List String) (errs : List ScanError),
      processDockerLines ip hostName scanId ls errs =
        (ls.filterMap (dockerRecOf ip hostName),
         errs ++ ls.filterMap (dockerErrOf scanId ip))
  | [], errs => by simp [processDockerLines]
  | l :: rest, errs => by
    by_cases h : pyStrip l = ""
    · simp [processDockerLines, h, dockerRecOf, dockerErrOf,
        processDockerLines_eq ip hostName scanId rest errs]
    · cases hp : parseJsonObj (pyStrip l) with
      | some c =>
        simp [processDockerLines, h, hp, dockerRecOf, dockerErrOf,
          processDockerLines_eq ip hostName scanId rest errs]
      | none =>
        simp [processDockerLines, h, hp, dockerRecOf, dockerErrOf,
          processDockerLines_eq ip hostName scanId rest
            (errs ++ [dockerParseError scanId ip (pyStrip l)])]

/-- C3: with the presence check succeeding, (a) a sentinel (`NO_DOCKER`) or
empty check output yields an empty inventory with no error recorded; (b)
otherwise, with the listing and hostname commands succeeding, every line of
the listing is handled independently: each well-formed line yields one
WorkloadRecord and each malformed line yields exactly one `Docker-Parse`
ScanError carrying that line as detail and is skipped. -/
theorem claim3 (env : Env) (ip : String) (sc : SshConfig) (errs : List ScanError)
    (scanId : Nat) (rawCheck rawPs rawHn : String)
    (hC : env.ssh ip sc.username sc.password dockerCheckCmd (sc.port.getD 22) (sc.timeout.getD 10) = .ok rawCheck) :
    ((pyStrip rawCheck = "" ∨ pyIn "NO_DOCKER" (pyStrip rawCheck) = true) →
      scanDockerOnHost env ip sc errs scanId = ([], errs))
    ∧ (pyStrip rawCheck ≠ "" → pyIn "NO_DOCKER" (pyStrip rawCheck) = false →
        env.ssh ip sc.username sc.password dockerPsCmd (sc.port.getD 22) (sc.timeout.getD 10) = .ok rawPs →
        env.ssh ip sc.username sc.password "hostname" (sc.port.getD 22) (sc.timeout.getD 10) = .ok rawHn →
        pyStrip rawPs ≠ "" →
        scanDockerOnHost env ip sc errs scanId =
          ((pySplit (pyStrip (pyStrip rawPs)) "\n").filterMap
              (dockerRecOf ip (if pyStrip rawHn = "" then ip else pyStrip rawHn)),
           errs ++ (pySplit (pyStrip (pyStrip rawPs)) "\n").filterMap (dockerErrOf scanId ip))) := by
  constructor
  · intro hs
    rw [scanDockerOnHost,
      trySshExec_first_user_ok env ip sc dockerCheckCmd errs scanId "Docker" rawCheck hC]
    rcases hs with hs | hs <;> simp [hs]
  · intro h1 h2 hPs hHn h3
    rw [scanDockerOnHost,
      trySshExec_first_user_ok env ip sc dockerCheckCmd errs scanId "Docker" rawCheck hC]
    simp only [h1, h2]
    rw [if_neg (by simp [h1, h2]),
      trySshExec_first_user_ok env ip sc dockerPsCmd errs scanId "Docker" rawPs hPs]
    simp only
    rw [if_neg (by simpa using h3),
      trySshExec_first_user_ok env ip sc "hostname" errs scanId "Docker" rawHn hHn]
    simp only
    exact processDockerLines_eq ip (if pyStrip rawHn = "" then ip else pyStrip rawHn) scanId
      (pySplit (pyStrip (pyStrip rawPs)) "\n") errs

/-- Environment for the C3 witness: docker present, a three-line listing
whose middle line is malformed. -/
def dockerEnvW : Env :=
  { downEnv with
    ssh := fun _ _ _ cmd _ _ =>
      if cmd = dockerCheckCmd then .ok "24.0"
      else if cmd = dockerPsCmd then
        .ok "\x7b\x22id\x22:\x22a1\x22,\x22name\x22:\x22web\x22\x7d\nnot-json\n\x7b\x22id\x22:\x22b2\x22,\x22name\x22:\x22db\x22\x7d"
      else if cmd = "hostname" then .ok "guest1"
      else .error "down" }

/-- The remote-exec credentials used in witnesses. -/
def sshCfgW : SshConfig := ⟨"root", none, "pw", none, none⟩

/-- C3 witness: the spec's example — lines `{"id":"a1",...}`, `not-json`,
`{"id":"b2",...}` yield two records and one parse error whose detail is
`not-json`. -/
theorem claim3_witness :
    scanDockerOnHost dockerEnvW "10.0.0.9" sshCfgW [] 5 =
      ([⟨"10.0.0.9", "guest1", "a1", "web", "", "", "", "", "", "", ""⟩,
        ⟨"10.0.0.9", "guest1", "b2", "db", "", "", "", "", "", "", ""⟩],
       [dockerParseError 5 "10.0.0.9" "not-json"]) := by
  have h := (claim3 dockerEnvW "10.0.0.9" sshCfgW [] 5 "24.0"
      "\x7b\x22id\x22:\x22a1\x22,\x22name\x22:\x22web\x22\x7d\nnot-json\n\x7b\x22id\x22:\x22b2\x22,\x22name\x22:\x22db\x22\x7d"
      "guest1" (by simp [dockerEnvW])).2
    (by decide) (by decide) (by simp [dockerEnvW, dockerPsCmd, dockerCheckCmd])
    (by simp [dockerEnvW, dockerPsCmd, dockerCheckCmd]) (by decide)
  rw [h]
  decide

/-! ## `get_guest_ip_from_proxmox` -/

/-- The inner scan of one agent interface's `ip-addresses` list.  Indexing
`addr['ip-address']` raises (`.error`) when the key is missing. -/
def scanAgentAddrs : List AgentAddr → Except String (Option String)
  | [] => .ok none
  | a :: rest =>
    if a.ipAddressType = some "ipv4" then
      match a.ipAddress with
      | none => .error "KeyError: ip-address"
      | some ipa =>
        if pyStartsWith ipa "127." then scanAgentAddrs rest else .ok (some ipa)
    else scanAgentAddrs rest

/-- The QEMU path: scan agent interfaces, skipping loopback. -/
def scanAgentIfaces : List AgentIface → Except String (Option String)
  | [] => .ok none
  | i :: rest =>
    if i.name = some "lo" then scanAgentIfaces rest
    else
      match scanAgentAddrs i.ipAddresses with
      | .error e => .error e
      | .ok (some ip) => .ok (some ip)
      | .ok none => scanAgentIfaces rest

/-- The `for p in parts` scan of one config value split on commas. -/
def ipFromParts : List String → Option String
  | [] => none
  | p :: rest =>
    if pyStartsWith (pyStrip p) "ip=" then
      let ipVal := (pySplit ((pySplit (pyStrip p) "=").getD 1 "") "/").headD ""
      if ipVal ≠ "" ∧ ipVal ≠ "dhcp" then some ipVal else ipFromParts rest
    else ipFromParts rest

/-- The `net0, net1, ...` scan of the LXC config items, in insertion order. -/
def findConfigIp : List (String × String) → Option String
  | [] => none
  | (k, v) :: rest =>
    if pyStartsWith k "net" ∧ pyIn "ip=" v then
      match ipFromParts (pySplit v ",") with
      | some ip => some ip
      | none => findConfigIp rest
    else findConfigIp rest

/-- The scan of the live `/interfaces` listing: first non-loopback inet
address, CIDR suffix stripped. -/
def findIfaceIp : List LxcIface → Option String
  | [] => none
  | i :: rest =>
    if i.name = some "lo" then findIfaceIp rest
    else
      let inet := i.inet.getD ""
      if inet ≠ "" ∧ ¬ pyStartsWith inet "127." then
        some ((pySplit inet "/").headD "")
      else findIfaceIp rest

/-- The fallback on the live interfaces endpoint; its nested
`try/except: pass` swallows any failure into `none`. -/
def lxcIfaceFallback (env : Env) (hostIp : String) (port : Nat)
    (ticket node : String) (vmid : Option Nat) : Option String :=
  match env.lxcIfaces hostIp port ticket node vmid with
  | .error _ => none
  | .ok none => none
  | .ok (some ifs) => findIfaceIp ifs

/-- The body of `get_guest_ip_from_proxmox` inside the outer `try`:
`.error` is a raised exception that the outer handler will turn into
`none`. -/
def getGuestIpBody (env : Env) (hostIp : String) (port : Nat)
    (ticket node vmtype : String) (vmid : Option Nat) : Except String (Option String) :=
  if vmtype = "qemu" then
    match env.agentIfaces hostIp port ticket node vmid with
    | .error e => .error e
    | .ok none => .ok none
    | .ok (some ifaces) => scanAgentIfaces ifaces
  else
    match env.lxcConfig hostIp port ticket node vmid with
    | .error e => .error e
    | .ok cfg =>
      match findConfigIp cfg with
      | some ip => .ok (some ip)
      | none => .ok (lxcIfaceFallback env hostIp port ticket node vmid)

/-- `get_guest_ip_from_proxmox`: the outer `try/except: pass` turns any
raised exception into the no-address result. -/
def getGuestIpFromProxmox (env : Env) (hostIp : String) (port : Nat)
    (ticket node vmtype : String) (vmid : Option Nat) : Option String :=
  match getGuestIpBody env hostIp port ticket node vmtype vmid with
  | .ok r => r
  | .error _ => none

/-! ## Claims C8 and C6 -/

/-- C8: GuestAddressResolver never raises — its result type is
`Option String` for every environment (exceptions are explicit `.error`
values in this embedding, and the function's range has none), and whenever
the body raises internally the result is the `none` (no address found)
outcome rather than a propagated error. -/
theorem claim8 (env : Env) (hostIp : String) (port : Nat)
    (ticket node vmtype : String) (vmid : Option Nat) :
    (getGuestIpFromProxmox env hostIp port ticket node vmtype vmid =
      match getGuestIpBody env hostIp port ticket node vmtype vmid with
      | .ok r => r
      | .error _ => none)
    ∧ (∀ e, getGuestIpBody env hostIp port ticket node vmtype vmid = .error e →
        getGuestIpFromProxmox env hostIp port ticket node vmtype vmid = none) := by
  refine ⟨rfl, fun e he => ?_⟩
  simp [getGuestIpFromProxmox, he]

/-- C8 witness: against an environment where every API call fails, the
resolver yields `none` for both guest kinds. -/
theorem claim8_witness :
    getGuestIpFromProxmox downEnv "10.0.0.1" 8006 "t" "node1" "qemu" (some 100) = none
    ∧ getGuestIpFromProxmox downEnv "10.0.0.1" 8006 "t" "node1" "lxc" (some 101) = none := by
  constructor
  · exact (claim8 downEnv "10.0.0.1" 8006 "t" "node1" "qemu" (some 100)).2 "down" rfl
  · exact (claim8 downEnv "10.0.0.1" 8006 "t" "node1" "lxc" (some 101)).2 "down" rfl

/-- C6: for a container guest whose declared config is readable, the
resolver returns the first usable `ip=` value from the `netN` entries
(`findConfigIp`: non-empty, non-`dhcp`, CIDR suffix stripped), and consults
the live-interfaces endpoint only when no such value exists — the equation
holds for every behaviour of the interfaces endpoint, and its fallback
branch is exactly the first non-loopback inet address with the CIDR suffix
stripped. -/
theorem claim6 (env : Env) (hostIp : String) (port : Nat) (ticket node : String)
    (vmid : Option Nat) (cfg : List (String × String))
    (h : env.lxcConfig hostIp port ticket node vmid = .ok cfg) :
    getGuestIpFromProxmox env hostIp port ticket node "lxc" vmid =
      (match findConfigIp cfg with
       | some ip => some ip
       | none => lxcIfaceFallback env hostIp port ticket node vmid) := by
  simp only [getGuestIpFromProxmox, getGuestIpBody, if_neg (by decide : ¬ ("lxc" = "qemu")), h]
  cases findConfigIp cfg <;> simp

/-- Environment for the C6 witness, static-IP case: `net0` carries
`ip=10.0.0.5/24`; the interfaces endpoint would answer differently. -/
def lxcEnvA : Env :=
  { downEnv with
    lxcConfig := fun _ _ _ _ _ =>
      .ok [("net0", "name=eth0,bridge=vmbr0,ip=10.0.0.5/24,gw=10.0.0.1")],
    lxcIfaces := fun _ _ _ _ _ =>
      .ok (some [⟨some "eth0", some "172.16.0.4/16"⟩]) }

/-- Environment for the C6 witness, DHCP case: the declared config only
offers `ip=dhcp`, the live interfaces endpoint reports a loopback and then
`192.168.1.7/24`. -/
def lxcEnvB : Env :=
  { downEnv with
    lxcConfig := fun _ _ _ _ _ => .ok [("net0", "name=eth0,ip=dhcp")],
    lxcIfaces := fun _ _ _ _ _ =>
      .ok (some [⟨some "lo", some "127.0.0.1/8"⟩, ⟨some "eth0", some "192.168.1.7/24"⟩]) }

/-- C6 witness: the spec's example — `net0: ...,ip=10.0.0.5/24,...` yields
`10.0.0.5` without consulting the interfaces endpoint; with `ip=dhcp` the
resolver falls through to the live interfaces and yields `192.168.1.7`. -/
theorem claim6_witness :
    getGuestIpFromProxmox lxcEnvA "h1" 8006 "t" "node1" "lxc" (some 101) = some "10.0.0.5"
    ∧ getGuestIpFromProxmox lxcEnvB "h1" 8006 "t" "node1" "lxc" (some 101) = some "192.168.1.7" := by
  constructor
  · rw [claim6 lxcEnvA "h1" 8006 "t" "node1" (some 101)
      [("net0", "name=eth0,bridge=vmbr0,ip=10.0.0.5/24,gw=10.0.0.1")] rfl]
    decide
  · rw [claim6 lxcEnvB "h1" 8006 "t" "node1" (some 101)
      [("net0", "name=eth0,ip=dhcp")] rfl]
    decide

/-! ## `scan_homeassistant` -/

/-- The filter applied to each `update.*` state: non-empty title, not a
firmware entity, and referencing an `_update` suffix. -/
def haSelect (s : HaState) : Bool :=
  pyStartsWith s.entity_id "update." && s.attributes.title.getD "" != ""
    && !(pyIn "_firmware" s.entity_id) && pyIn "_update" s.entity_id

/-- The WorkloadRecord derived from one selected update entity. -/
def mkHaRecord (ip haName : String) (u : HaState) : DockerRecord :=
  let installedVer := u.attributes.installed_version.getD "?"
  let latestVer := u.attributes.latest_version.getD "?"
  let stateStr0 := if u.state = "on" then "update_available" else "running"
  let stateStr := if u.state = "unavailable" then "unavailable" else stateStr0
  let statusDetail :=
    "v" ++ installedVer ++ (if u.state = "on" ∧ latestVer ≠ "" then " -> " ++ latestVer else "")
  { host_ip := ip
    host_name := haName ++ " (HAOS)"
    container_id := u.entity_id
    name := u.attributes.title.getD ""
    image := "ha-addon/" ++ pyReplace (pyReplace u.entity_id "update." "") "_update" ""
    status := statusDetail
    state := stateStr
    ports := ""
    created_at := ""
    networks := "hassio"
    mounts := "" }

/-- The `for u in updates` loop (the `updates` list-comprehension filter and
the three `continue`s are the conjuncts of `haSelect`). -/
def haLoop (ip haName : String) : List HaState → List DockerRecord
  | [] => []
  | u :: rest =>
    if haSelect u then mkHaRecord ip haName u :: haLoop ip haName rest
    else haLoop ip haName rest

/-- `scan_homeassistant`: config fetch, states fetch (each failure recorded
as its own ScanError and short-circuiting to an empty result), then the
add-on extraction loop. -/
def scanHomeassistant (env : Env) (ha : HaCfg) (scanId : Nat)
    (errs : List ScanError) : List DockerRecord × List ScanError :=
  let ip := ha.ip
  let port := ha.port.getD 8123
  match env.haConfig ip port with
  | .error e =>
    ([], errs ++ [⟨scanId, ip, "HomeAssistant-API",
      "HA API config failed on " ++ ip ++ ": " ++ e, e⟩])
  | .ok locName =>
    match env.haStates ip port with
    | .error e =>
      ([], errs ++ [⟨scanId, ip, "HomeAssistant-States",
        "HA API states failed on " ++ ip ++ ": " ++ e, e⟩])
    | .ok states =>
      let haName := locName.getD "Home Assistant"
      (haLoop ip haName states, errs)

theorem haLoop_eq (ip haName : String) :
    ∀ states : List HaState,
      haLoop ip haName states = (states.filter haSelect).map (mkHaRecord ip haName)
  | [] => by simp [haLoop]
  | u :: rest => by
    by_cases h : haSelect u <;>
      simp [haLoop, h, haLoop_eq ip haName rest]

/-! ## Claim C5 -/

/-- C5 (amended): with both hub calls succeeding, HubCollector selects
exactly the states accepted by `haSelect` (identifier is an `update.`
entity with a non-empty title, no firmware marker, and an `_update`
suffix); each selected entity yields one WorkloadRecord whose state is
`unavailable` when the entity state is `"unavailable"`, `update_available`
when it is `"on"`, and `running` otherwise, and whose status string is the
installed version prefixed with `v`, extended with `" -> <latest>"` exactly
when an update is pending AND the latest-version text is non-empty. -/
theorem claim5 (env : Env) (ha : HaCfg) (scanId : Nat) (errs : List ScanError)
    (locName : Option String) (states : List HaState)
    (h1 : env.haConfig ha.ip (ha.port.getD 8123) = .ok locName)
    (h2 : env.haStates ha.ip (ha.port.getD 8123) = .ok states) :
    (scanHomeassistant env ha scanId errs =
      ((states.filter haSelect).map (mkHaRecord ha.ip (locName.getD "Home Assistant")), errs))
    ∧ (∀ s : HaState, haSelect s = true ↔
        (pyStartsWith s.entity_id "update." = true ∧ s.attributes.title.getD "" ≠ ""
          ∧ pyIn "_firmware" s.entity_id = false ∧ pyIn "_update" s.entity_id = true))
    ∧ (∀ (nm : String) (s : HaState),
        (mkHaRecord ha.ip nm s).state =
          (if s.state = "unavailable" then "unavailable"
           else if s.state = "on" then "update_available" else "running")
        ∧ (mkHaRecord ha.ip nm s).status =
          "v" ++ s.attributes.installed_version.getD "?" ++
            (if s.state = "on" ∧ s.attributes.latest_version.getD "?" ≠ "" then
              " -> " ++ s.attributes.latest_version.getD "?" else "")) := by
  refine ⟨?_, ?_, ?_⟩
  · simp [scanHomeassistant, h1, h2, haLoop_eq]
  · intro s
    simp [haSelect, and_assoc]
  · intro nm s
    exact ⟨by simp [mkHaRecord], by simp [mkHaRecord]⟩

/-- Environment for the C5 counterexample: one pending add-on update whose
`latest_version` attribute is the empty string. -/
def haEnvC : Env :=
  { downEnv with
    haConfig := fun _ _ => .ok (some "Casa"),
    haStates := fun _ _ =>
      .ok [⟨"update.addon_x_update", "on", ⟨some "X", some "1.0", some ""⟩⟩] }

/-- The hub definition used in the C5 theorems. -/
def haCfgC : HaCfg := ⟨"192.168.1.50", none, "tok", none⟩

/-- C5 counterexample: an entity with state `"on"` (an update is pending —
the record is classified `update_available`) but an empty `latest_version`
produces status `"v1.0"` without the `" -> <latest>"` extension, refuting
"extended with ' -> <latest>' exactly when an update is pending". -/
theorem claim5_counter :
    scanHomeassistant haEnvC haCfgC 1 [] =
      ([⟨"192.168.1.50", "Casa (HAOS)", "update.addon_x_update", "X", "ha-addon/addon_x",
        "v1.0", "update_available", "", "", "hassio", ""⟩], []) := by
  decide

/-- Environment for the C5 witness: the spec's example — a firmware update
entity and a pending add-on update `update.addon_foo_update`. -/
def haEnvW : Env :=
  { downEnv with
    haConfig := fun _ _ => .ok (some "Home"),
    haStates := fun _ _ =>
      .ok [⟨"update.device_firmware", "on", ⟨some "Device firmware", some "2.0", some "2.1"⟩⟩,
           ⟨"update.addon_foo_update", "on", ⟨some "Foo", some "1.0", some "1.1"⟩⟩] }

/-- C5 witness: `update.device_firmware` is excluded while
`update.addon_foo_update` (state `on`, installed `1.0`, latest `1.1`) is
classified `update_available` with status `v1.0 -> 1.1`. -/
theorem claim5_witness :
    scanHomeassistant haEnvW haCfgC 2 [] =
      ([⟨"192.168.1.50", "Home (HAOS)", "update.addon_foo_update", "Foo", "ha-addon/addon_foo",
        "v1.0 -> 1.1", "update_available", "", "", "hassio", ""⟩], []) := by
  have h := (claim5 haEnvW haCfgC 2 [] (some "Home")
      [⟨"update.device_firmware", "on", ⟨some "Device firmware", some "2.0", some "2.1"⟩⟩,
       ⟨"update.addon_foo_update", "on", ⟨some "Foo", some "1.0", some "1.1"⟩⟩] rfl rfl).1
  rw [h]
  decide

/-! ## `scan_proxmox_host` -/

/-- The empty per-host `result` dictionary initialised at the top of
`scan_proxmox_host`. -/
def emptyHostResult : HostResult := ⟨none, [], [], [], [], []⟩

/-- The `Proxmox-Auth` ScanError (host-fatal authentication failure). -/
def authFailError (scanId : Nat) (ip e : String) : ScanError :=
  ⟨scanId, ip, "Proxmox-Auth", "Authentication failed for " ++ ip ++ ": " ++ e, e⟩

/-- The `Proxmox-Nodes` ScanError (host-fatal topology-fetch failure). -/
def nodesFailError (scanId : Nat) (ip e : String) : ScanError :=
  ⟨scanId, ip, "Proxmox-Nodes", "Failed to get nodes from " ++ ip ++ ": " ++ e, e⟩

/-- The `Proxmox-Resources` ScanError (non-fatal). -/
def resourcesFailError (scanId : Nat) (ip e : String) : ScanError :=
  ⟨scanId, ip, "Proxmox-Resources", "Failed to get resources from " ++ ip ++ ": " ++ e, e⟩

/-- The `Network` ScanError (non-fatal). -/
def networkFailError (scanId : Nat) (ip e : String) : ScanError :=
  ⟨scanId, ip, "Network", "Failed to get network info from " ++ ip ++ ": " ++ e, e⟩

/-- `result['host']` before the optional kernel version. -/
def mkHostInfo (ip versionStr nodeName : String) (node : NodeData) : HostInfo where
  ip_address := ip
  hostname := nodeName
  pve_version := versionStr
  node_name := nodeName
  status := node.status.getD "unknown"
  uptime_seconds := node.uptime.getD 0
  cpu_count := node.maxcpu.getD 0
  cpu_usage := node.cpu.getD 0
  mem_total := node.maxmem.getD 0
  mem_used := node.mem.getD 0
  disk_total := node.maxdisk.getD 0
  disk_used := node.disk.getD 0
  kernel_version := none

/-- The VM record built for one `qemu` resource. -/
def mkVmRecord (hostIp nodeName : String) (r : ResourceData) (vmIp : Option String) :
    VmRecord where
  host_ip := hostIp
  node_name := nodeName
  vmid := r.vmid.getD 0
  name := r.name.getD ""
  status := r.status.getD ""
  tags := r.tags.getD ""
  is_template := if r.template.getD 0 ≠ 0 then 1 else 0
  cpu_count := r.maxcpu.getD 0
  cpu_usage := r.cpu.getD 0
  mem_total := r.maxmem.getD 0
  mem_used := r.mem.getD 0
  disk_total := r.maxdisk.getD 0
  disk_used := r.disk.getD 0
  disk_read := r.diskread.getD 0
  disk_write := r.diskwrite.getD 0
  net_in := r.netin.getD 0
  net_out := r.netout.getD 0
  uptime_seconds := r.uptime.getD 0
  ip_address := vmIp

/-- The container-guest record built for one `lxc` resource. -/
def mkLxcRecord (hostIp nodeName : String) (r : ResourceData) (lxcIp : Option String) :
    LxcRecord where
  host_ip := hostIp
  node_name := nodeName
  vmid := r.vmid.getD 0
  name := r.name.getD ""
  status := r.status.getD ""
  cpu_count := r.maxcpu.getD 0
  cpu_usage := r.cpu.getD 0
  mem_total := r.maxmem.getD 0
  mem_used := r.mem.getD 0
  disk_total := r.maxdisk.getD 0
  disk_used := r.disk.getD 0
  disk_read := r.diskread.getD 0
  disk_write := r.diskwrite.getD 0
  net_in := r.netin.getD 0
  net_out := r.netout.getD 0
  uptime_seconds := r.uptime.getD 0
  ip_address := lxcIp

/-- The storage record built for one `storage` resource. -/
def mkStorageRecord (hostIp nodeName : String) (r : ResourceData) : StorageRecord where
  host_ip := hostIp
  node_name := nodeName
  storage_name := r.storage.getD ""
  storage_type := r.plugintype.getD ""
  content := r.content.getD ""
  total_bytes := r.maxdisk.getD 0
  used_bytes := r.disk.getD 0
  shared := if r.shared.getD 0 ≠ 0 then 1 else 0
  status := r.status.getD ""

/-- The network record built for one host network interface. -/
def mkNetworkRecord (hostIp nodeName : String) (i : NetIfaceData) : NetworkRecord where
  host_ip := hostIp
  host_name := nodeName
  interface_name := i.iface.getD ""
  ip_address := match i.address with
    | some a => a
    | none => i.cidr.getD ""
  type := i.type.getD ""
  active := if i.active.getD 0 ≠ 0 then 1 else 0
  bridge_ports := i.bridge_ports.getD ""

/-- Python dict assignment `d[k] = v` on an insertion-ordered association
list (`guest_ips`). -/
def dictInsert (d : List (Option Nat × String)) (k : Option Nat) (v : String) :
    List (Option Nat × String) :=
  if d.any (fun p => p.1 == k) then
    d.map (fun p => if p.1 == k then (k, v) else p)
  else d ++ [(k, v)]

/-- One iteration of the `for res in resources` loop, acting on the
accumulated `(vms, lxcs, storage, guest_ips)`. -/
def resourceStep (env : Env) (hostIp : String) (port : Nat) (ticket nodeName : String)
    (acc : List VmRecord × List LxcRecord × List StorageRecord × List (Option Nat × String))
    (r : ResourceData) :
    List VmRecord × List LxcRecord × List StorageRecord × List (Option Nat × String) :=
  let (vms, lxcs, stor, gips) := acc
  let t := r.type.getD ""
  if t = "qemu" then
    let vmIp := getGuestIpFromProxmox env hostIp port ticket nodeName "qemu" r.vmid
    let gips' := match vmIp with
      | some a => if a ≠ "" ∧ r.status = some "running" then dictInsert gips r.vmid a else gips
      | none => gips
    (vms ++ [mkVmRecord hostIp nodeName r vmIp], lxcs, stor, gips')
  else if t = "lxc" then
    let lxcIp := getGuestIpFromProxmox env hostIp port ticket nodeName "lxc" r.vmid
    let gips' := match lxcIp with
      | some a => if a ≠ "" ∧ r.status = some "running" then dictInsert gips r.vmid a else gips
      | none => gips
    (vms, lxcs ++ [mkLxcRecord hostIp nodeName r lxcIp], stor, gips')
  else if t = "storage" then
    (vms, lxcs, stor ++ [mkStorageRecord hostIp nodeName r], gips)
  else acc

/-- The `for vmid, guest_ip in guest_ips.items()` loop: docker-scan every
tracked guest address unless it is in the skip list.  The third component
instruments the call sites: the addresses `scan_docker_on_host` is invoked
on, in order. -/
def guestDockerLoop (env : Env) (sc : SshConfig) (scanId : Nat) (skip : List String) :
    List (Option Nat × String) → List ScanError →
      List DockerRecord × List ScanError × List String
  | [], errs => ([], errs, [])
  | (_, gip) :: rest, errs =>
    if skip.contains gip then guestDockerLoop env sc scanId skip rest errs
    else
      let (d, errs') := scanDockerOnHost env gip sc errs scanId
      let (ds, errs'', calls) := guestDockerLoop env sc scanId skip rest errs'
      (d ++ ds, errs'', gip :: calls)

/-- The network-interface step of `scan_proxmox_host` (option-gated,
non-fatal failure). -/
def hostPhaseNetwork (env : Env) (ip : String) (port : Nat) (ticket nodeName : String)
    (scanId : Nat) (opts : ScanOptions) (errs : List ScanError) :
    List NetworkRecord × List ScanError :=
  if opts.scan_network.getD true then
    match env.networkIfaces ip port ticket nodeName with
    | .ok (some ifaces) => (ifaces.map (mkNetworkRecord ip nodeName), errs)
    | .ok none => ([], errs)
    | .error e => ([], errs ++ [networkFailError scanId ip e])
  else ([], errs)

/-- The docker step of `scan_proxmox_host`: option-gated scan of the host
itself and then of every tracked running-guest address.  The third
component instruments the call targets of `scan_docker_on_host`. -/
def hostPhaseDocker (env : Env) (ip : String) (sc : SshConfig) (scanId : Nat)
    (opts : ScanOptions) (gips : List (Option Nat × String)) (errs : List ScanError) :
    List DockerRecord × List ScanError × List String :=
  if opts.scan_docker.getD true then
    let (hostDocker, errs4) := scanDockerOnHost env ip sc errs scanId
    if opts.ssh_into_guests.getD true then
      let (guestDocker, errs5, gcalls) :=
        guestDockerLoop env sc scanId opts.skip_docker_scan gips errs4
      (hostDocker ++ guestDocker, errs5, ip :: gcalls)
    else (hostDocker, errs4, [ip])
  else ([], errs, [])

/-- The best-effort `/version` fetch: `unknown` when the call fails or the
field is absent. -/
def versionStrOf (env : Env) (ip : String) (port : Nat) (ticket : String) : String :=
  match env.version ip port ticket with
  | .ok v => v.getD "unknown"
  | .error _ => "unknown"

/-- `scan_proxmox_host` from the point where at least one node is known:
host info, kernel version, resources, network, docker. -/
def scanHostAfterNodes (env : Env) (hostCfg : HostCfg) (sc : SshConfig) (scanId : Nat)
    (errs : List ScanError) (opts : ScanOptions) (ticket versionStr : String)
    (node : NodeData) : HostResult × List ScanError × List String :=
  let ip := hostCfg.ip
  let port := hostCfg.port.getD 8006
  let nodeName := node.node.getD "unknown"
  let host0 := mkHostInfo ip versionStr nodeName node
  let (kernel, errs1) := trySshExec env ip sc "uname -r" errs scanId "Proxmox-SSH"
  let host1 := match kernel with
    | some k => if k ≠ "" then { host0 with kernel_version := some k } else host0
    | none => host0
  let (resources, errs2) := match env.resources ip port ticket with
    | .ok rs => (rs, errs1)
    | .error e => ([], errs1 ++ [resourcesFailError scanId ip e])
  let (vms, lxcs, stor, gips) :=
    resources.foldl (resourceStep env ip port ticket nodeName) ([], [], [], [])
  let (network, errs3) := hostPhaseNetwork env ip port ticket nodeName scanId opts errs2
  let (docker, errsF, calls) := hostPhaseDocker env ip sc scanId opts gips errs3
  (⟨some host1, vms, lxcs, docker, stor, network⟩, errsF, calls)

/-- `scan_proxmox_host`.  Returns the per-host result, the updated error
list, and (instrumentation) the list of addresses `scan_docker_on_host` was
invoked on, in call order. -/
def scanProxmoxHost (env : Env) (hostCfg : HostCfg) (sc : SshConfig) (scanId : Nat)
    (errs : List ScanError) (opts : ScanOptions) :
    HostResult × List ScanError × List String :=
  let ip := hostCfg.ip
  let port := hostCfg.port.getD 8006
  match env.auth ip port hostCfg.user hostCfg.password with
  | .error e => (emptyHostResult, errs ++ [authFailError scanId ip e], [])
  | .ok (ticket, _csrf) =>
    let versionStr := versionStrOf env ip port ticket
    match env.nodes ip port ticket with
    | .error e => (emptyHostResult, errs ++ [nodesFailError scanId ip e], [])
    | .ok [] => (emptyHostResult, errs, [])
    | .ok (node :: _) =>
      scanHostAfterNodes env hostCfg sc scanId errs opts ticket versionStr node

/-! ## The orchestrator (`main`), modulo the ResultSink -/

/-- The `for host_cfg in config['proxmox_hosts']` loop.  The embedded
`scan_proxmox_host` is total, so the loop's `except` arm (which would log a
`Proxmox-Scan` error and skip the append) is unreachable in the model. -/
def scanHosts (env : Env) (sc : SshConfig) (scanId : Nat) (opts : ScanOptions) :
    List HostCfg → List ScanError → List HostResult × List ScanError
  | [], errs => ([], errs)
  | h :: rest, errs =>
    let (r, errs2, _calls) := scanProxmoxHost env h sc scanId errs opts
    let (rs, errs3) := scanHosts env sc scanId opts rest errs2
    (r :: rs, errs3)

/-- The result-dictionary wrapper `main` appends for a hub or a local
container batch. -/
def haToHostResult (docker : List DockerRecord) : HostResult :=
  ⟨none, [], [], docker, [], []⟩

/-- The hub loop of `main`. -/
def scanHubs (env : Env) (scanId : Nat) :
    List HaCfg → List ScanError → List HostResult × List ScanError
  | [], errs => ([], errs)
  | ha :: rest, errs =>
    let (d, errs2) := scanHomeassistant env ha scanId errs
    let (rs, errs3) := scanHubs env scanId rest errs2
    (haToHostResult d :: rs, errs3)

/-- The `Docker-Local` ScanError. -/
def localDockerError (scanId : Nat) (e : String) : ScanError :=
  ⟨scanId, "127.0.0.1", "Docker-Local", "Local Docker scan failed: " ++ e, e⟩

/-- The record built for one locally-listed container (note the hard-coded
host address in the source). -/
def mkLocalDockerRecord (hostname : String) (c : List (String × String)) : DockerRecord where
  host_ip := "192.168.178.89"
  host_name := hostname
  container_id := pyGet c "id" ""
  name := pyGet c "name" ""
  image := pyGet c "image" ""
  status := pyGet c "status" ""
  state := pyGet c "state" ""
  ports := pyGet c "ports" ""
  created_at := pyGet c "created" ""
  networks := pyGet c "networks" ""
  mounts := pyGet c "mounts" ""

/-- The local docker block of `main`: a subprocess presence check, then a
per-line parse where malformed lines are silently skipped; any raised
exception yields one `Docker-Local` error. -/
def localDockerScan (env : Env) (scanId : Nat) (errs : List ScanError) :
    List HostResult × List ScanError :=
  match env.localInfoRc with
  | .error e => ([], errs ++ [localDockerError scanId e])
  | .ok rc =>
    if rc = 0 then
      match env.localPs with
      | .error e => ([], errs ++ [localDockerError scanId e])
      | .ok out =>
        if pyStrip out ≠ "" then
          ((pySplit (pyStrip out) "\n").filterMap (fun l =>
            if pyStrip l ≠ "" then
              (parseJsonObj (pyStrip l)).map
                (fun c => haToHostResult [mkLocalDockerRecord env.localHostname c])
            else none), errs)
        else ([], errs)
    else ([], errs)

/-- The collection part of `main`: build the merged scan options, scan all
Proxmox hosts, then all hubs, then local docker, threading the shared error
list.  (Run creation, persistence and retention cleanup are the
ResultSink.) -/
def runScan (env : Env) (cfg : Config) (scanId : Nat) :
    List HostResult × List ScanError :=
  let opts := { cfg.scan_options with skip_docker_scan := cfg.skip_docker_scan }
  let (hostResults, errs1) := scanHosts env cfg.ssh_credentials scanId opts cfg.proxmox_hosts []
  let (hubResults, errs2) := scanHubs env scanId cfg.homeassistant errs1
  let (localResults, errs3) := localDockerScan env scanId errs2
  (hostResults ++ hubResults ++ localResults, errs3)

/-! ## Claims C1 and C4 -/

theorem scanHosts_length (env : Env) (sc : SshConfig) (scanId : Nat) (opts : ScanOptions) :
    ∀ (hosts : List HostCfg) (errs : List ScanError),
      (scanHosts env sc scanId opts hosts errs).1.length = hosts.length
  | [], errs => by simp [scanHosts]
  | h :: rest, errs => by
    rcases hS : scanProxmoxHost env h sc scanId errs opts with ⟨r, errs2, calls⟩
    simp [scanHosts, hS, scanHosts_length env sc scanId opts rest errs2]

/-- C1: when authentication for a configured host fails, that host's scan
stops immediately — the per-host result is the empty one (no
HostSnapshot/guest/docker/storage/network records), no container scan is
invoked, and exactly one `Proxmox-Auth` ScanError is appended; and the host
loop still yields one result entry per configured host, so the run
continues with the next host. -/
theorem claim1 (env : Env) (hostCfg : HostCfg) (sc : SshConfig) (scanId : Nat)
    (errs : List ScanError) (opts : ScanOptions) (e : String)
    (h : env.auth hostCfg.ip (hostCfg.port.getD 8006) hostCfg.user hostCfg.password = .error e) :
    scanProxmoxHost env hostCfg sc scanId errs opts =
      (emptyHostResult, errs ++ [authFailError scanId hostCfg.ip e], [])
    ∧ (∀ (hosts : List HostCfg) (errs0 : List ScanError),
        (scanHosts env sc scanId opts hosts errs0).1.length = hosts.length) := by
  exact ⟨by simp [scanProxmoxHost, h], scanHosts_length env sc scanId opts⟩

/-- The host definition used in witnesses. -/
def hostCfgW : HostCfg := ⟨"10.0.0.1", none, "root@pam", "pw"⟩

/-- The scan options used in witnesses (all defaults). -/
def optsW : ScanOptions := ⟨none, none, none, []⟩

/-- C1 witness: against an unreachable host the scan yields the empty
result and the single `Proxmox-Auth` error, and a two-host loop still
produces two result entries. -/
theorem claim1_witness :
    scanProxmoxHost downEnv hostCfgW sshCfgW 7 [] optsW =
      (emptyHostResult, [authFailError 7 "10.0.0.1" "down"], [])
    ∧ (scanHosts downEnv sshCfgW 7 optsW [hostCfgW, hostCfgW] []).1.length = 2 := by
  have h := claim1 downEnv hostCfgW sshCfgW 7 [] optsW "down" rfl
  exact ⟨by simpa using h.1, h.2 [hostCfgW, hostCfgW] []⟩

/-- C4 (amended): with authentication succeeded, a failing node-topology
fetch aborts the host's remaining steps (empty result, no container-scan
call) and records exactly one `Proxmox-Nodes` ScanError; a topology fetch
that returns no nodes also aborts the host's remaining steps, but records
no ScanError at all. -/
theorem claim4 (env : Env) (hostCfg : HostCfg) (sc : SshConfig) (scanId : Nat)
    (errs : List ScanError) (opts : ScanOptions) (ticket csrf : String)
    (hAuth : env.auth hostCfg.ip (hostCfg.port.getD 8006) hostCfg.user hostCfg.password =
      .ok (ticket, csrf)) :
    (∀ e, env.nodes hostCfg.ip (hostCfg.port.getD 8006) ticket = .error e →
      scanProxmoxHost env hostCfg sc scanId errs opts =
        (emptyHostResult, errs ++ [nodesFailError scanId hostCfg.ip e], []))
    ∧ (env.nodes hostCfg.ip (hostCfg.port.getD 8006) ticket = .ok [] →
      scanProxmoxHost env hostCfg sc scanId errs opts = (emptyHostResult, errs, [])) := by
  constructor
  · intro e hN
    simp [scanProxmoxHost, hAuth, hN]
  · intro hN
    simp [scanProxmoxHost, hAuth, hN]

/-- Environment for the C4 counterexample: authentication succeeds and the
`/nodes` call succeeds with an empty node list. -/
def envNodesEmpty : Env :=
  { downEnv with
    auth := fun _ _ _ _ => .ok ("tick", "csrf"),
    nodes := fun _ _ _ => .ok [] }

/-- Environment for the C4 witness: authentication succeeds and the
`/nodes` call raises. -/
def envNodesFail : Env :=
  { downEnv with auth := fun _ _ _ _ => .ok ("tick", "csrf") }

/-- C4 counterexample: when the topology fetch returns no nodes the host's
remaining steps are indeed aborted, but the error list stays empty — no
ScanError is recorded, refuting "this condition is always logged as a
ScanError". -/
theorem claim4_counter :
    scanProxmoxHost envNodesEmpty hostCfgW sshCfgW 3 [] optsW =
      (emptyHostResult, [], []) := by
  simp [scanProxmoxHost, envNodesEmpty, downEnv]

/-- C4 witness: a raising topology fetch aborts the host with exactly one
`Proxmox-Nodes` error; an empty topology aborts it with none. -/
theorem claim4_witness :
    scanProxmoxHost envNodesFail hostCfgW sshCfgW 3 [] optsW =
      (emptyHostResult, [nodesFailError 3 "10.0.0.1" "down"], [])
    ∧ scanProxmoxHost envNodesEmpty hostCfgW sshCfgW 3 [] optsW =
      (emptyHostResult, [], []) := by
  constructor
  · simpa using
      (claim4 envNodesFail hostCfgW sshCfgW 3 [] optsW "tick" "csrf" rfl).1 "down" rfl
  · simpa using
      (claim4 envNodesEmpty hostCfgW sshCfgW 3 [] optsW "tick" "csrf" rfl).2 rfl

/-! ## Claim C7: decomposition of the resource loop -/

/-- The VM records the resource loop produces, in listing order: every
`qemu` resource yields a record carrying the resolver's result regardless
of the guest's status. -/
def vmsOf (env : Env) (hostIp : String) (port : Nat) (ticket nodeName : String)
    (rs : List ResourceData) : List VmRecord :=
  rs.filterMap (fun r =>
    if r.type.getD "" = "qemu" then
      some (mkVmRecord hostIp nodeName r
        (getGuestIpFromProxmox env hostIp port ticket nodeName "qemu" r.vmid))
    else none)

/-- The container-guest records the resource loop produces. -/
def lxcsOf (env : Env) (hostIp : String) (port : Nat) (ticket nodeName : String)
    (rs : List ResourceData) : List LxcRecord :=
  rs.filterMap (fun r =>
    if r.type.getD "" ≠ "qemu" ∧ r.type.getD "" = "lxc" then
      some (mkLxcRecord hostIp nodeName r
        (getGuestIpFromProxmox env hostIp port ticket nodeName "lxc" r.vmid))
    else none)

/-- The storage records the resource loop produces. -/
def storageOf (hostIp nodeName : String) (rs : List ResourceData) : List StorageRecord :=
  rs.filterMap (fun r =>
    if r.type.getD "" ≠ "qemu" ∧ r.type.getD "" ≠ "lxc" ∧ r.type.getD "" = "storage" then
      some (mkStorageRecord hostIp nodeName r)
    else none)

/-- The `guest_ips` update of one resource-loop iteration. -/
def gipStep (env : Env) (hostIp : String) (port : Nat) (ticket nodeName : String)
    (g : List (Option Nat × String)) (r : ResourceData) : List (Option Nat × String) :=
  let t := r.type.getD ""
  if t = "qemu" then
    match getGuestIpFromProxmox env hostIp port ticket nodeName "qemu" r.vmid with
    | some a => if a ≠ "" ∧ r.status = some "running" then dictInsert g r.vmid a else g
    | none => g
  else if t = "lxc" then
    match getGuestIpFromProxmox env hostIp port ticket nodeName "lxc" r.vmid with
    | some a => if a ≠ "" ∧ r.status = some "running" then dictInsert g r.vmid a else g
    | none => g
  else g

/-- The `guest_ips` dictionary after the whole resource loop. -/
def guestIpsOf (env : Env) (hostIp : String) (port : Nat) (ticket nodeName : String)
    (rs : List ResourceData) : List (Option Nat × String) :=
  rs.foldl (gipStep env hostIp port ticket nodeName) []

theorem resourceFold_eq (env : Env) (hostIp : String) (port : Nat) (ticket nodeName : String) :
    ∀ (rs : List ResourceData) (vs : List VmRecord) (ls : List LxcRecord)
      (ss : List StorageRecord) (gs : List (Option Nat × String)),
      rs.foldl (resourceStep env hostIp port ticket nodeName) (vs, ls, ss, gs) =
        (vs ++ vmsOf env hostIp port ticket nodeName rs,
         ls ++ lxcsOf env hostIp port ticket nodeName rs,
         ss ++ storageOf hostIp nodeName rs,
         rs.foldl (gipStep env hostIp port ticket nodeName) gs)
  | [], vs, ls, ss, gs => by simp [vmsOf, lxcsOf, storageOf]
  | r :: rest, vs, ls, ss, gs => by
    have IH := resourceFold_eq env hostIp port ticket nodeName rest
    simp only [List.foldl_cons]
    by_cases h1 : r.type.getD "" = "qemu"
    · cases hip : getGuestIpFromProxmox env hostIp port ticket nodeName "qemu" r.vmid with
      | none =>
        simp [resourceStep, gipStep, vmsOf, lxcsOf, storageOf, h1, hip, IH]
      | some a =>
        by_cases h2 : a ≠ "" ∧ r.status = some "running"
        · simp [resourceStep, gipStep, vmsOf, lxcsOf, storageOf, h1, hip, h2, IH]
        · simp [resourceStep, gipStep, vmsOf, lxcsOf, storageOf, h1, hip, h2, IH]
    · by_cases h2 : r.type.getD "" = "lxc"
      · cases hip : getGuestIpFromProxmox env hostIp port ticket nodeName "lxc" r.vmid with
        | none =>
          simp [resourceStep, gipStep, vmsOf, lxcsOf, storageOf, h1, h2, hip, IH]
        | some a =>
          by_cases h3 : a ≠ "" ∧ r.status = some "running"
          · simp [resourceStep, gipStep, vmsOf, lxcsOf, storageOf, h1, h2, hip, h3, IH]
          · simp [resourceStep, gipStep, vmsOf, lxcsOf, storageOf, h1, h2, hip, h3, IH]
      · by_cases h3 : r.type.getD "" = "storage"
        · simp [resourceStep, gipStep, vmsOf, lxcsOf, storageOf, h1, h2, h3, IH]
        · simp [resourceStep, gipStep, vmsOf, lxcsOf, storageOf, h1, h2, h3, IH]

theorem dictInsert_mem (d : List (Option Nat × String)) (k : Option Nat) (v : String) :
    ∀ p ∈ dictInsert d k v, p ∈ d ∨ p = (k, v) := by
  intro p hp
  unfold dictInsert at hp
  by_cases h : d.any (fun q => q.1 == k)
  · rw [if_pos h] at hp
    obtain ⟨q, hq, hft⟩ := List.mem_map.mp hp
    by_cases hqk : q.1 == k
    · right
      rw [if_pos hqk] at hft
      exact hft.symm
    · left
      rw [if_neg hqk] at hft
      exact hft ▸ hq
  · rw [if_neg h] at hp
    rcases List.mem_append.mp hp with h1 | h1
    · exact Or.inl h1
    · exact Or.inr (by simpa using h1)

/-- The source of one `guest_ips` entry: a running guest resource whose
resolver produced that (truthy) address. -/
def gipWitness (env : Env) (hostIp : String) (port : Nat) (ticket nodeName : String)
    (r : ResourceData) (p : Option Nat × String) : Prop :=
  p.1 = r.vmid ∧ p.2 ≠ "" ∧ r.status = some "running" ∧
    ((r.type.getD "" = "qemu" ∧
      getGuestIpFromProxmox env hostIp port ticket nodeName "qemu" r.vmid = some p.2)
     ∨ (r.type.getD "" = "lxc" ∧
      getGuestIpFromProxmox env hostIp port ticket nodeName "lxc" r.vmid = some p.2))

theorem gipStep_mem (env : Env) (hostIp : String) (port : Nat) (ticket nodeName : String)
    (g : List (Option Nat × String)) (r : ResourceData) :
    ∀ p ∈ gipStep env hostIp port ticket nodeName g r,
      p ∈ g ∨ gipWitness env hostIp port ticket nodeName r p := by
  intro p hp
  unfold gipStep at hp
  by_cases h1 : r.type.getD "" = "qemu"
  · cases hip : getGuestIpFromProxmox env hostIp port ticket nodeName "qemu" r.vmid with
    | none => simp [h1, hip] at hp; exact Or.inl hp
    | some a =>
      by_cases h2 : a ≠ "" ∧ r.status = some "running"
      · simp [h1, hip, h2.1, h2.2] at hp
        rcases dictInsert_mem g r.vmid a p hp with h3 | h3
        · exact Or.inl h3
        · refine Or.inr ⟨by simp [h3], by simp [h3, h2.1], h2.2, Or.inl ⟨h1, by simp [h3, hip]⟩⟩
      · simp [h1, hip, h2] at hp
        exact Or.inl hp
  · by_cases h2 : r.type.getD "" = "lxc"
    · cases hip : getGuestIpFromProxmox env hostIp port ticket nodeName "lxc" r.vmid with
      | none => simp [h1, h2, hip] at hp; exact Or.inl hp
      | some a =>
        by_cases h3 : a ≠ "" ∧ r.status = some "running"
        · simp [h1, h2, hip, h3.1, h3.2] at hp
          rcases dictInsert_mem g r.vmid a p hp with h4 | h4
          · exact Or.inl h4
          · refine Or.inr ⟨by simp [h4], by simp [h4, h3.1], h3.2, Or.inr ⟨h2, by simp [h4, hip]⟩⟩
        · simp [h1, h2, hip, h3] at hp
          exact Or.inl hp
    · simp [h1, h2] at hp
      exact Or.inl hp

theorem foldl_gipStep_mem (env : Env) (hostIp : String) (port : Nat) (ticket nodeName : String) :
    ∀ (rs : List ResourceData) (g : List (Option Nat × String)),
      ∀ p ∈ rs.foldl (gipStep env hostIp port ticket nodeName) g,
        p ∈ g ∨ ∃ r ∈ rs, gipWitness env hostIp port ticket nodeName r p
  | [], g => by simp
  | r :: rest, g => by
    intro p hp
    simp only [List.foldl_cons] at hp
    rcases foldl_gipStep_mem env hostIp port ticket nodeName rest
        (gipStep env hostIp port ticket nodeName g r) p hp with h | ⟨r2, hr2, hw⟩
    · rcases gipStep_mem env hostIp port ticket nodeName g r p h with h2 | h2
      · exact Or.inl h2
      · exact Or.inr ⟨r, by simp, h2⟩
    · exact Or.inr ⟨r2, by simp [hr2], hw⟩

/-! ## Claim C7: error locality of the docker phase -/

theorem trySshExec_delta (env : Env) (ip : String) (sc : SshConfig) (command : String)
    (errs : List ScanError) (scanId : Nat) (comp : String) :
    ∃ delta, (trySshExec env ip sc command errs scanId comp).2 = errs ++ delta ∧
      ∀ e ∈ delta, e.host_ip = ip := by
  unfold trySshExec
  rcases hA : sshAttempts env ip sc command (usersToTry sc) "" with ⟨o, last⟩
  cases o with
  | some out => exact ⟨[], by simp [hA], by simp⟩
  | none =>
    exact ⟨[⟨scanId, ip, comp, sshFailMessage ip (usersToTry sc) last, last⟩],
      by simp [hA], by simp⟩

theorem dockerErrOf_host_ip (scanId : Nat) (ip l : String) (e : ScanError)
    (h : dockerErrOf scanId ip l = some e) : e.host_ip = ip := by
  unfold dockerErrOf at h
  by_cases h1 : pyStrip l = ""
  · simp [h1] at h
  · rw [if_neg h1] at h
    cases h2 : parseJsonObj (pyStrip l) with
    | some c => rw [h2] at h; cases h
    | none =>
      rw [h2] at h
      cases h
      rfl

theorem scanDockerOnHost_delta (env : Env) (ip : String) (sc : SshConfig)
    (errs : List ScanError) (scanId : Nat) :
    ∃ delta, (scanDockerOnHost env ip sc errs scanId).2 = errs ++ delta ∧
      ∀ e ∈ delta, e.host_ip = ip := by
  unfold scanDockerOnHost
  obtain ⟨d1, h1, hd1⟩ := trySshExec_delta env ip sc dockerCheckCmd errs scanId "Docker"
  rcases hT1 : trySshExec env ip sc dockerCheckCmd errs scanId "Docker" with ⟨check, errs1⟩
  rw [hT1] at h1
  simp only at h1
  subst h1
  cases check with
  | none => exact ⟨d1, by simp [hT1], hd1⟩
  | some s =>
    by_cases hs : s = "" ∨ pyIn "NO_DOCKER" s
    · exact ⟨d1, by simp [hT1, hs], hd1⟩
    · obtain ⟨d2, h2, hd2⟩ := trySshExec_delta env ip sc dockerPsCmd (errs ++ d1) scanId "Docker"
      rcases hT2 : trySshExec env ip sc dockerPsCmd (errs ++ d1) scanId "Docker" with ⟨out, errs2⟩
      rw [hT2] at h2
      simp only at h2
      subst h2
      cases out with
      | none =>
        refine ⟨d1 ++ d2, by simp [hT1, hs, hT2], ?_⟩
        intro e he
        rcases List.mem_append.mp he with he | he
        · exact hd1 e he
        · exact hd2 e he
      | some o =>
        by_cases ho : o = ""
        · refine ⟨d1 ++ d2, by simp [hT1, hs, hT2, ho], ?_⟩
          intro e he
          rcases List.mem_append.mp he with he | he
          · exact hd1 e he
          · exact hd2 e he
        · obtain ⟨d3, h3, hd3⟩ :=
            trySshExec_delta env ip sc "hostname" (errs ++ d1 ++ d2) scanId "Docker"
          rcases hT3 : trySshExec env ip sc "hostname" (errs ++ d1 ++ d2) scanId "Docker"
            with ⟨hn, errs3⟩
          rw [hT3] at h3
          simp only at h3
          subst h3
          simp only [List.append_assoc] at hT3
          refine ⟨d1 ++ d2 ++ d3 ++ (pySplit (pyStrip o) "\n").filterMap (dockerErrOf scanId ip),
            ?_, ?_⟩
          · simp [hT1, hs, hT2, ho, hT3, processDockerLines_eq]
          · intro e he
            rcases List.mem_append.mp he with he | he
            · rcases List.mem_append.mp he with he | he
              · rcases List.mem_append.mp he with he | he
                · exact hd1 e he
                · exact hd2 e he
              · exact hd3 e he
            · obtain ⟨l, hl0, hl⟩ := List.mem_filterMap.mp he
              exact dockerErrOf_host_ip scanId ip l e hl

theorem guestDockerLoop_calls (env : Env) (sc : SshConfig) (scanId : Nat) (skip : List String) :
    ∀ (gips : List (Option Nat × String)) (errs : List ScanError),
      (guestDockerLoop env sc scanId skip gips errs).2.2 =
        (gips.filter (fun p => !(skip.contains p.2))).map (fun p => p.2)
  | [], errs => by simp [guestDockerLoop]
  | (vm, gip) :: rest, errs => by
    by_cases h : gip ∈ skip
    · simp [guestDockerLoop, h, guestDockerLoop_calls env sc scanId skip rest errs]
    · rcases hD : scanDockerOnHost env gip sc errs scanId with ⟨d, errs2⟩
      have hRest := guestDockerLoop_calls env sc scanId skip rest errs2
      rcases hG : guestDockerLoop env sc scanId skip rest errs2 with ⟨ds, errs3, calls⟩
      rw [hG] at hRest
      simp only at hRest
      simp [guestDockerLoop, h, hD, hG, hRest]

theorem guestDockerLoop_delta (env : Env) (sc : SshConfig) (scanId : Nat) (skip : List String) :
    ∀ (gips : List (Option Nat × String)) (errs : List ScanError),
      ∃ delta, (guestDockerLoop env sc scanId skip gips errs).2.1 = errs ++ delta ∧
        ∀ e ∈ delta, e.host_ip ∈ (guestDockerLoop env sc scanId skip gips errs).2.2
  | [], errs => ⟨[], by simp [guestDockerLoop], by simp⟩
  | (vm, gip) :: rest, errs => by
    by_cases h : gip ∈ skip
    · obtain ⟨delta, h1, h2⟩ := guestDockerLoop_delta env sc scanId skip rest errs
      refine ⟨delta, ?_, ?_⟩
      · simpa [guestDockerLoop, h] using h1
      · simpa [guestDockerLoop, h] using h2
    · obtain ⟨d1, hA, hA2⟩ := scanDockerOnHost_delta env gip sc errs scanId
      rcases hD : scanDockerOnHost env gip sc errs scanId with ⟨d, errs2⟩
      rw [hD] at hA
      simp only at hA
      subst hA
      obtain ⟨delta, h1, h2⟩ := guestDockerLoop_delta env sc scanId skip rest (errs ++ d1)
      rcases hG : guestDockerLoop env sc scanId skip rest (errs ++ d1) with ⟨ds, errs3, calls⟩
      rw [hG] at h1 h2
      simp only at h1 h2
      subst h1
      refine ⟨d1 ++ delta, by simp [guestDockerLoop, h, hD, hG], ?_⟩
      intro e he
      rcases List.mem_append.mp he with he | he
      · simp [guestDockerLoop, h, hD, hG, hA2 e he]
      · simp [guestDockerLoop, h, hD, hG, h2 e he]

theorem scanProxmoxHost_ok (env : Env) (hostCfg : HostCfg) (sc : SshConfig) (scanId : Nat)
    (errs : List ScanError) (opts : ScanOptions) (ticket csrf : String)
    (node : NodeData) (tail : List NodeData)
    (hAuth : env.auth hostCfg.ip (hostCfg.port.getD 8006) hostCfg.user hostCfg.password =
      .ok (ticket, csrf))
    (hNodes : env.nodes hostCfg.ip (hostCfg.port.getD 8006) ticket = .ok (node :: tail)) :
    scanProxmoxHost env hostCfg sc scanId errs opts =
      scanHostAfterNodes env hostCfg sc scanId errs opts ticket
        (versionStrOf env hostCfg.ip (hostCfg.port.getD 8006) ticket) node := by
  simp [scanProxmoxHost, hAuth, hNodes]

/-- C7: with a reachable host (auth and topology succeed) and both docker
scanning and guest SSH scanning enabled, (i) `scan_docker_on_host` is
invoked exactly on the host itself followed by the tracked guest addresses
not in the skip list, in order; (ii) no skip-listed address is among the
guest-scan targets; (iii) the VM and container records carry the resolver's
address for every guest regardless of its status (`vmsOf`/`lxcsOf` map the
resolver over all entries); (iv) every tracked `guest_ips` entry stems from
a resource whose status is `running` and whose resolver produced that
(non-empty) address; (v) the guest-scan loop only appends errors whose
host address is one of its actual call targets, so a skipped guest gets no
container-related ScanError. -/
theorem claim7 (env : Env) (hostCfg : HostCfg) (sc : SshConfig) (scanId : Nat)
    (errs : List ScanError) (opts : ScanOptions) (ticket csrf : String)
    (node : NodeData) (tail : List NodeData) (resources : List ResourceData)
    (hAuth : env.auth hostCfg.ip (hostCfg.port.getD 8006) hostCfg.user hostCfg.password =
      .ok (ticket, csrf))
    (hNodes : env.nodes hostCfg.ip (hostCfg.port.getD 8006) ticket = .ok (node :: tail))
    (hRes : env.resources hostCfg.ip (hostCfg.port.getD 8006) ticket = .ok resources)
    (hD : opts.scan_docker.getD true = true)
    (hG : opts.ssh_into_guests.getD true = true) :
    ((scanProxmoxHost env hostCfg sc scanId errs opts).2.2 =
      hostCfg.ip ::
        ((guestIpsOf env hostCfg.ip (hostCfg.port.getD 8006) ticket (node.node.getD "unknown")
            resources).filter
          (fun p => !(opts.skip_docker_scan.contains p.2))).map (fun p => p.2))
    ∧ (∀ a ∈ opts.skip_docker_scan,
        a ∉ ((guestIpsOf env hostCfg.ip (hostCfg.port.getD 8006) ticket
            (node.node.getD "unknown") resources).filter
          (fun p => !(opts.skip_docker_scan.contains p.2))).map (fun p => p.2))
    ∧ ((scanProxmoxHost env hostCfg sc scanId errs opts).1.vms =
        vmsOf env hostCfg.ip (hostCfg.port.getD 8006) ticket (node.node.getD "unknown") resources)
    ∧ ((scanProxmoxHost env hostCfg sc scanId errs opts).1.lxcs =
        lxcsOf env hostCfg.ip (hostCfg.port.getD 8006) ticket (node.node.getD "unknown") resources)
    ∧ (∀ p ∈ guestIpsOf env hostCfg.ip (hostCfg.port.getD 8006) ticket
          (node.node.getD "unknown") resources,
        ∃ r ∈ resources,
          gipWitness env hostCfg.ip (hostCfg.port.getD 8006) ticket
            (node.node.getD "unknown") r p)
    ∧ (∀ (gips : List (Option Nat × String)) (errsX : List ScanError),
        ∃ delta,
          (guestDockerLoop env sc scanId opts.skip_docker_scan gips errsX).2.1 =
            errsX ++ delta ∧
          ∀ e ∈ delta,
            e.host_ip ∈ (guestDockerLoop env sc scanId opts.skip_docker_scan gips errsX).2.2) := by
  rw [scanProxmoxHost_ok env hostCfg sc scanId errs opts ticket csrf node tail hAuth hNodes]
  refine ⟨?_, ?_, ?_, ?_, ?_, ?_⟩
  case refine_2 =>
    intro a ha hmem
    obtain ⟨p, hp, hpa⟩ := List.mem_map.mp hmem
    have hp2 := (List.mem_filter.mp hp).2
    simp at hp2
    exact hp2 (hpa ▸ ha)
  case refine_5 =>
    intro p hp
    rcases foldl_gipStep_mem env hostCfg.ip (hostCfg.port.getD 8006) ticket
        (node.node.getD "unknown") resources [] p hp with h | h
    · cases h
    · exact h
  case refine_6 =>
    intro gips errsX
    exact guestDockerLoop_delta env sc scanId opts.skip_docker_scan gips errsX
  case refine_1 =>
    rcases hK : trySshExec env hostCfg.ip sc "uname -r" errs scanId "Proxmox-SSH"
      with ⟨kernel, errs1⟩
    rcases hN : hostPhaseNetwork env hostCfg.ip (hostCfg.port.getD 8006) ticket
        (node.node.getD "unknown") scanId opts errs1 with ⟨network, errsN⟩
    rcases hHD : scanDockerOnHost env hostCfg.ip sc errsN scanId with ⟨hostDocker, errs4⟩
    have hCalls := guestDockerLoop_calls env sc scanId opts.skip_docker_scan
      (List.foldl (gipStep env hostCfg.ip (hostCfg.port.getD 8006) ticket
        (node.node.getD "unknown")) [] resources) errs4
    rcases hGL : guestDockerLoop env sc scanId opts.skip_docker_scan
        (List.foldl (gipStep env hostCfg.ip (hostCfg.port.getD 8006) ticket
          (node.node.getD "unknown")) [] resources) errs4 with ⟨gd, errs5, gcalls⟩
    rw [hGL] at hCalls
    simp only at hCalls
    simp [scanHostAfterNodes, hK, hRes,
      resourceFold_eq env hostCfg.ip (hostCfg.port.getD 8006) ticket
        (node.node.getD "unknown") resources [] [] [] [],
      hN, hostPhaseDocker, hD, hG, hHD, hGL, guestIpsOf, hCalls]
  all_goals {
    rcases hK : trySshExec env hostCfg.ip sc "uname -r" errs scanId "Proxmox-SSH"
      with ⟨kernel, errs1⟩
    rcases hN : hostPhaseNetwork env hostCfg.ip (hostCfg.port.getD 8006) ticket
        (node.node.getD "unknown") scanId opts errs1 with ⟨network, errsN⟩
    rcases hPD : hostPhaseDocker env hostCfg.ip sc scanId opts
        (List.foldl (gipStep env hostCfg.ip (hostCfg.port.getD 8006) ticket
          (node.node.getD "unknown")) [] resources) errsN with ⟨docker, errsF, calls⟩
    simp [scanHostAfterNodes, hK, hRes,
      resourceFold_eq env hostCfg.ip (hostCfg.port.getD 8006) ticket
        (node.node.getD "unknown") resources [] [] [] [],
      hN, hPD]
  }

/-- A ResourceData with every optional field absent. -/
def baseResource : ResourceData :=
  ⟨none, none, none, none, none, none, none, none, none, none, none,
   none, none, none, none, none, none, none, none, none, none⟩

/-- C7 witness data: a running container whose address is skip-listed. -/
def c7Res1 : ResourceData :=
  { baseResource with type := some "lxc", vmid := some 201, status := some "running" }

/-- C7 witness data: a running container whose address is scanned. -/
def c7Res2 : ResourceData :=
  { baseResource with type := some "lxc", vmid := some 202, status := some "running" }

/-- C7 witness data: a stopped container with a resolvable address. -/
def c7Res3 : ResourceData :=
  { baseResource with type := some "lxc", vmid := some 203, status := some "stopped" }

/-- The single node of the C7 witness host. -/
def node1 : NodeData := ⟨some "node1", none, none, none, none, none, none, none, none⟩

/-- C7 witness environment: reachable host, three containers with declared
addresses, every SSH command failing. -/
def c7Env : Env :=
  { downEnv with
    auth := fun _ _ _ _ => .ok ("tick", "csrf"),
    nodes := fun _ _ _ => .ok [node1],
    resources := fun _ _ _ => .ok [c7Res1, c7Res2, c7Res3],
    lxcConfig := fun _ _ _ _ vmid =>
      if vmid = some 201 then .ok [("net0", "name=eth0,ip=10.0.0.8/24")]
      else if vmid = some 202 then .ok [("net0", "name=eth0,ip=10.0.0.9/24")]
      else .ok [("net0", "name=eth0,ip=10.0.0.7/24")] }

/-- The C7 witness host and options (skip list holds the first guest's
address). -/
def c7Host : HostCfg := ⟨"10.0.0.1", none, "root@pam", "pw"⟩

/-- Scan options for the C7 witness. -/
def c7Opts : ScanOptions := ⟨none, some true, some true, ["10.0.0.8"]⟩

/-- C7 witness: the container scan targets are exactly the host itself and
the running non-skipped guest address `10.0.0.9`; the skipped running
address `10.0.0.8` and the stopped guest's `10.0.0.7` are not targets,
although all three addresses are recorded on the guest records. -/
theorem claim7_witness :
    (scanProxmoxHost c7Env c7Host sshCfgW 9 [] c7Opts).2.2 = ["10.0.0.1", "10.0.0.9"]
    ∧ guestIpsOf c7Env "10.0.0.1" 8006 "tick" "node1" [c7Res1, c7Res2, c7Res3] =
        [(some 201, "10.0.0.8"), (some 202, "10.0.0.9")]
    ∧ (lxcsOf c7Env "10.0.0.1" 8006 "tick" "node1" [c7Res1, c7Res2, c7Res3]).map
        (fun l => l.ip_address) = [some "10.0.0.8", some "10.0.0.9", some "10.0.0.7"] := by
  have h := claim7 c7Env c7Host sshCfgW 9 [] c7Opts "tick" "csrf" node1 []
    [c7Res1, c7Res2, c7Res3] rfl rfl rfl rfl rfl
  refine ⟨?_, by decide, by decide⟩
  rw [h.1]
  decide

/-! ## Claim C9: determinism modulo the run identifier

The embedding is pure, so two runs against the same environment and
configuration can differ only through the `scan_id` parameter, which flows
exclusively into the `scan_id` field of ScanError entries.  `scrubId`
erases that field; the lemmas below show every stage produces identical
record output and scrub-equal error lists for any two run identifiers. -/

/-- Erase the run identifier of an error entry. -/
def scrubId (e : ScanError) : ScanError := { e with scan_id := 0 }

theorem trySshExec_scrub (env : Env) (ip : String) (sc : SshConfig) (command comp : String)
    (errs1 errs2 : List ScanError) (id1 id2 : Nat)
    (h : errs1.map scrubId = errs2.map scrubId) :
    (trySshExec env ip sc command errs1 id1 comp).1 =
      (trySshExec env ip sc command errs2 id2 comp).1
    ∧ (trySshExec env ip sc command errs1 id1 comp).2.map scrubId =
      (trySshExec env ip sc command errs2 id2 comp).2.map scrubId := by
  unfold trySshExec
  rcases hA : sshAttempts env ip sc command (usersToTry sc) "" with ⟨o, last⟩
  cases o <;> simp [hA, h, scrubId]

theorem filterMap_dockerErrOf_scrub (ip : String) (id1 id2 : Nat) :
    ∀ ls : List String,
      (ls.filterMap (dockerErrOf id1 ip)).map scrubId =
        (ls.filterMap (dockerErrOf id2 ip)).map scrubId
  | [] => by simp
  | l :: rest => by
    have IH := filterMap_dockerErrOf_scrub ip id1 id2 rest
    by_cases h : pyStrip l = ""
    · simp [dockerErrOf, h, IH]
    · cases hp : parseJsonObj (pyStrip l) <;>
        simp [dockerErrOf, h, hp, IH, scrubId, dockerParseError]

theorem scanDockerOnHost_scrub (env : Env) (ip : String) (sc : SshConfig)
    (errs1 errs2 : List ScanError) (id1 id2 : Nat)
    (h : errs1.map scrubId = errs2.map scrubId) :
    (scanDockerOnHost env ip sc errs1 id1).1 = (scanDockerOnHost env ip sc errs2 id2).1
    ∧ (scanDockerOnHost env ip sc errs1 id1).2.map scrubId =
      (scanDockerOnHost env ip sc errs2 id2).2.map scrubId := by
  unfold scanDockerOnHost
  obtain ⟨hc1, hc2⟩ := trySshExec_scrub env ip sc dockerCheckCmd "Docker" errs1 errs2 id1 id2 h
  rcases hT1 : trySshExec env ip sc dockerCheckCmd errs1 id1 "Docker" with ⟨check1, e1⟩
  rcases hT2 : trySshExec env ip sc dockerCheckCmd errs2 id2 "Docker" with ⟨check2, e2⟩
  rw [hT1, hT2] at hc1 hc2
  simp only at hc1 hc2
  subst hc1
  cases check1 with
  | none => simp [hT1, hT2, hc2]
  | some s =>
    by_cases hs : s = "" ∨ pyIn "NO_DOCKER" s
    · simp [hT1, hT2, hs, hc2]
    · obtain ⟨hp1, hp2⟩ := trySshExec_scrub env ip sc dockerPsCmd "Docker" e1 e2 id1 id2 hc2
      rcases hU1 : trySshExec env ip sc dockerPsCmd e1 id1 "Docker" with ⟨out1, f1⟩
      rcases hU2 : trySshExec env ip sc dockerPsCmd e2 id2 "Docker" with ⟨out2, f2⟩
      rw [hU1, hU2] at hp1 hp2
      simp only at hp1 hp2
      subst hp1
      cases out1 with
      | none => simp [hT1, hT2, hs, hU1, hU2, hp2]
      | some o =>
        by_cases ho : o = ""
        · simp [hT1, hT2, hs, hU1, hU2, ho, hp2]
        · obtain ⟨hh1, hh2⟩ := trySshExec_scrub env ip sc "hostname" "Docker" f1 f2 id1 id2 hp2
          rcases hV1 : trySshExec env ip sc "hostname" f1 id1 "Docker" with ⟨hn1, g1⟩
          rcases hV2 : trySshExec env ip sc "hostname" f2 id2 "Docker" with ⟨hn2, g2⟩
          rw [hV1, hV2] at hh1 hh2
          simp only at hh1 hh2
          subst hh1
          simp [hT1, hT2, hs, hU1, hU2, ho, hV1, hV2, processDockerLines_eq, hh2,
            filterMap_dockerErrOf_scrub ip id1 id2]

theorem guestDockerLoop_scrub (env : Env) (sc : SshConfig) (skip : List String) :
    ∀ (gips : List (Option Nat × String)) (errs1 errs2 : List ScanError) (id1 id2 : Nat),
      errs1.map scrubId = errs2.map scrubId →
      (guestDockerLoop env sc id1 skip gips errs1).1 =
        (guestDockerLoop env sc id2 skip gips errs2).1
      ∧ (guestDockerLoop env sc id1 skip gips errs1).2.1.map scrubId =
        (guestDockerLoop env sc id2 skip gips errs2).2.1.map scrubId
      ∧ (guestDockerLoop env sc id1 skip gips errs1).2.2 =
        (guestDockerLoop env sc id2 skip gips errs2).2.2
  | [], errs1, errs2, id1, id2, h => by simp [guestDockerLoop, h]
  | (vm, gip) :: rest, errs1, errs2, id1, id2, h => by
    by_cases hSkip : gip ∈ skip
    · have IH := guestDockerLoop_scrub env sc skip rest errs1 errs2 id1 id2 h
      simpa [guestDockerLoop, hSkip] using IH
    · obtain ⟨hd1, hd2⟩ := scanDockerOnHost_scrub env gip sc errs1 errs2 id1 id2 h
      rcases hD1 : scanDockerOnHost env gip sc errs1 id1 with ⟨d1, e1⟩
      rcases hD2 : scanDockerOnHost env gip sc errs2 id2 with ⟨d2, e2⟩
      rw [hD1, hD2] at hd1 hd2
      simp only at hd1 hd2
      subst hd1
      have IH := guestDockerLoop_scrub env sc skip rest e1 e2 id1 id2 hd2
      rcases hG1 : guestDockerLoop env sc id1 skip rest e1 with ⟨ds1, f1, c1⟩
      rcases hG2 : guestDockerLoop env sc id2 skip rest e2 with ⟨ds2, f2, c2⟩
      rw [hG1, hG2] at IH
      simp only at IH
      simp [guestDockerLoop, hSkip, hD1, hD2, hG1, hG2, IH.1, IH.2.1, IH.2.2]

theorem scanHomeassistant_scrub (env : Env) (ha : HaCfg)
    (errs1 errs2 : List ScanError) (id1 id2 : Nat)
    (h : errs1.map scrubId = errs2.map scrubId) :
    (scanHomeassistant env ha id1 errs1).1 = (scanHomeassistant env ha id2 errs2).1
    ∧ (scanHomeassistant env ha id1 errs1).2.map scrubId =
      (scanHomeassistant env ha id2 errs2).2.map scrubId := by
  unfold scanHomeassistant
  cases hc : env.haConfig ha.ip (ha.port.getD 8123) with
  | error e => simp [hc, h, scrubId]
  | ok locName =>
    cases hst : env.haStates ha.ip (ha.port.getD 8123) with
    | error e => simp [hc, hst, h, scrubId]
    | ok states => simp [hc, hst, h]

theorem hostPhaseNetwork_scrub (env : Env) (ip : String) (port : Nat)
    (ticket nodeName : String) (opts : ScanOptions)
    (errs1 errs2 : List ScanError) (id1 id2 : Nat)
    (h : errs1.map scrubId = errs2.map scrubId) :
    (hostPhaseNetwork env ip port ticket nodeName id1 opts errs1).1 =
      (hostPhaseNetwork env ip port ticket nodeName id2 opts errs2).1
    ∧ (hostPhaseNetwork env ip port ticket nodeName id1 opts errs1).2.map scrubId =
      (hostPhaseNetwork env ip port ticket nodeName id2 opts errs2).2.map scrubId := by
  unfold hostPhaseNetwork
  by_cases hN : opts.scan_network.getD true
  · cases hI : env.networkIfaces ip port ticket nodeName with
    | error e => simp [hN, hI, h, scrubId, networkFailError]
    | ok v => cases v <;> simp [hN, hI, h]
  · simp [hN, h]

theorem hostPhaseDocker_scrub (env : Env) (ip : String) (sc : SshConfig)
    (opts : ScanOptions) (gips : List (Option Nat × String))
    (errs1 errs2 : List ScanError) (id1 id2 : Nat)
    (h : errs1.map scrubId = errs2.map scrubId) :
    (hostPhaseDocker env ip sc id1 opts gips errs1).1 =
      (hostPhaseDocker env ip sc id2 opts gips errs2).1
    ∧ (hostPhaseDocker env ip sc id1 opts gips errs1).2.1.map scrubId =
      (hostPhaseDocker env ip sc id2 opts gips errs2).2.1.map scrubId
    ∧ (hostPhaseDocker env ip sc id1 opts gips errs1).2.2 =
      (hostPhaseDocker env ip sc id2 opts gips errs2).2.2 := by
  unfold hostPhaseDocker
  by_cases hD : opts.scan_docker.getD true
  · obtain ⟨h1, h2⟩ := scanDockerOnHost_scrub env ip sc errs1 errs2 id1 id2 h
    rcases hD1 : scanDockerOnHost env ip sc errs1 id1 with ⟨d1, e1⟩
    rcases hD2 : scanDockerOnHost env ip sc errs2 id2 with ⟨d2, e2⟩
    rw [hD1, hD2] at h1 h2
    simp only at h1 h2
    subst h1
    by_cases hG : opts.ssh_into_guests.getD true
    · have IH := guestDockerLoop_scrub env sc opts.skip_docker_scan gips e1 e2 id1 id2 h2
      rcases hG1 : guestDockerLoop env sc id1 opts.skip_docker_scan gips e1 with ⟨ds1, f1, c1⟩
      rcases hG2 : guestDockerLoop env sc id2 opts.skip_docker_scan gips e2 with ⟨ds2, f2, c2⟩
      rw [hG1, hG2] at IH
      simp only at IH
      simp [hD, hG, hD1, hD2, hG1, hG2, IH.1, IH.2.1, IH.2.2]
    · simp [hD, hG, hD1, hD2, h2]
  · simp [hD, h]

theorem scanHostAfterNodes_scrub (env : Env) (hostCfg : HostCfg) (sc : SshConfig)
    (opts : ScanOptions) (ticket versionStr : String) (node : NodeData)
    (errs1 errs2 : List ScanError) (id1 id2 : Nat)
    (h : errs1.map scrubId = errs2.map scrubId) :
    (scanHostAfterNodes env hostCfg sc id1 errs1 opts ticket versionStr node).1 =
      (scanHostAfterNodes env hostCfg sc id2 errs2 opts ticket versionStr node).1
    ∧ (scanHostAfterNodes env hostCfg sc id1 errs1 opts ticket versionStr node).2.1.map scrubId =
      (scanHostAfterNodes env hostCfg sc id2 errs2 opts ticket versionStr node).2.1.map scrubId
    ∧ (scanHostAfterNodes env hostCfg sc id1 errs1 opts ticket versionStr node).2.2 =
      (scanHostAfterNodes env hostCfg sc id2 errs2 opts ticket versionStr node).2.2 := by
  unfold scanHostAfterNodes
  obtain ⟨hk1, hk2⟩ :=
    trySshExec_scrub env hostCfg.ip sc "uname -r" "Proxmox-SSH" errs1 errs2 id1 id2 h
  rcases hK1 : trySshExec env hostCfg.ip sc "uname -r" errs1 id1 "Proxmox-SSH" with ⟨k1, e1⟩
  rcases hK2 : trySshExec env hostCfg.ip sc "uname -r" errs2 id2 "Proxmox-SSH" with ⟨k2, e2⟩
  rw [hK1, hK2] at hk1 hk2
  simp only at hk1 hk2
  subst hk1
  cases hR : env.resources hostCfg.ip (hostCfg.port.getD 8006) ticket with
  | ok rs =>
    obtain ⟨hn1, hn2⟩ := hostPhaseNetwork_scrub env hostCfg.ip (hostCfg.port.getD 8006)
      ticket (node.node.getD "unknown") opts e1 e2 id1 id2 hk2
    rcases hN1 : hostPhaseNetwork env hostCfg.ip (hostCfg.port.getD 8006) ticket
        (node.node.getD "unknown") id1 opts e1 with ⟨netw1, n1⟩
    rcases hN2 : hostPhaseNetwork env hostCfg.ip (hostCfg.port.getD 8006) ticket
        (node.node.getD "unknown") id2 opts e2 with ⟨netw2, n2⟩
    rw [hN1, hN2] at hn1 hn2
    simp only at hn1 hn2
    subst hn1
    obtain ⟨hpd1, hpd2, hpd3⟩ := hostPhaseDocker_scrub env hostCfg.ip sc opts
      ((rs.foldl (resourceStep env hostCfg.ip (hostCfg.port.getD 8006) ticket
        (node.node.getD "unknown")) ([], [], [], [])).2.2.2) n1 n2 id1 id2 hn2
    rcases hPD1 : hostPhaseDocker env hostCfg.ip sc id1 opts
        ((rs.foldl (resourceStep env hostCfg.ip (hostCfg.port.getD 8006) ticket
          (node.node.getD "unknown")) ([], [], [], [])).2.2.2) n1 with ⟨dk1, g1, c1⟩
    rcases hPD2 : hostPhaseDocker env hostCfg.ip sc id2 opts
        ((rs.foldl (resourceStep env hostCfg.ip (hostCfg.port.getD 8006) ticket
          (node.node.getD "unknown")) ([], [], [], [])).2.2.2) n2 with ⟨dk2, g2, c2⟩
    rw [hPD1, hPD2] at hpd1 hpd2 hpd3
    simp only at hpd1 hpd2 hpd3
    simp [hK1, hK2, hR, hN1, hN2, hPD1, hPD2, hpd1, hpd2, hpd3]
  | error e =>
    have hk2e : (e1 ++ [resourcesFailError id1 hostCfg.ip e]).map scrubId =
        (e2 ++ [resourcesFailError id2 hostCfg.ip e]).map scrubId := by
      simp [hk2, scrubId, resourcesFailError]
    obtain ⟨hn1, hn2⟩ := hostPhaseNetwork_scrub env hostCfg.ip (hostCfg.port.getD 8006)
      ticket (node.node.getD "unknown") opts
      (e1 ++ [resourcesFailError id1 hostCfg.ip e])
      (e2 ++ [resourcesFailError id2 hostCfg.ip e]) id1 id2 hk2e
    rcases hN1 : hostPhaseNetwork env hostCfg.ip (hostCfg.port.getD 8006) ticket
        (node.node.getD "unknown") id1 opts
        (e1 ++ [resourcesFailError id1 hostCfg.ip e]) with ⟨netw1, n1⟩
    rcases hN2 : hostPhaseNetwork env hostCfg.ip (hostCfg.port.getD 8006) ticket
        (node.node.getD "unknown") id2 opts
        (e2 ++ [resourcesFailError id2 hostCfg.ip e]) with ⟨netw2, n2⟩
    rw [hN1, hN2] at hn1 hn2
    simp only at hn1 hn2
    subst hn1
    obtain ⟨hpd1, hpd2, hpd3⟩ :=
      hostPhaseDocker_scrub env hostCfg.ip sc opts [] n1 n2 id1 id2 hn2
    rcases hPD1 : hostPhaseDocker env hostCfg.ip sc id1 opts [] n1 with ⟨dk1, g1, c1⟩
    rcases hPD2 : hostPhaseDocker env hostCfg.ip sc id2 opts [] n2 with ⟨dk2, g2, c2⟩
    rw [hPD1, hPD2] at hpd1 hpd2 hpd3
    simp only at hpd1 hpd2 hpd3
    simp [hK1, hK2, hR, hN1, hN2, hPD1, hPD2, hpd1, hpd2, hpd3]

theorem scanProxmoxHost_scrub (env : Env) (hostCfg : HostCfg) (sc : SshConfig)
    (opts : ScanOptions) (errs1 errs2 : List ScanError) (id1 id2 : Nat)
    (h : errs1.map scrubId = errs2.map scrubId) :
    (scanProxmoxHost env hostCfg sc id1 errs1 opts).1 =
      (scanProxmoxHost env hostCfg sc id2 errs2 opts).1
    ∧ (scanProxmoxHost env hostCfg sc id1 errs1 opts).2.1.map scrubId =
      (scanProxmoxHost env hostCfg sc id2 errs2 opts).2.1.map scrubId
    ∧ (scanProxmoxHost env hostCfg sc id1 errs1 opts).2.2 =
      (scanProxmoxHost env hostCfg sc id2 errs2 opts).2.2 := by
  unfold scanProxmoxHost
  cases hA : env.auth hostCfg.ip (hostCfg.port.getD 8006) hostCfg.user hostCfg.password with
  | error e => simp [hA, h, scrubId, authFailError]
  | ok tc =>
    rcases tc with ⟨ticket, csrf⟩
    cases hN : env.nodes hostCfg.ip (hostCfg.port.getD 8006) ticket with
    | error e => simp [hA, hN, h, scrubId, nodesFailError]
    | ok nodes =>
      cases nodes with
      | nil => simp [hA, hN, h]
      | cons node tail =>
        simp only [hA, hN]
        exact scanHostAfterNodes_scrub env hostCfg sc opts ticket
          (versionStrOf env hostCfg.ip (hostCfg.port.getD 8006) ticket) node
          errs1 errs2 id1 id2 h

theorem scanHosts_scrub (env : Env) (sc : SshConfig) (opts : ScanOptions) :
    ∀ (hosts : List HostCfg) (errs1 errs2 : List ScanError) (id1 id2 : Nat),
      errs1.map scrubId = errs2.map scrubId →
      (scanHosts env sc id1 opts hosts errs1).1 = (scanHosts env sc id2 opts hosts errs2).1
      ∧ (scanHosts env sc id1 opts hosts errs1).2.map scrubId =
        (scanHosts env sc id2 opts hosts errs2).2.map scrubId
  | [], errs1, errs2, id1, id2, h => by simp [scanHosts, h]
  | hc :: rest, errs1, errs2, id1, id2, h => by
    obtain ⟨h1, h2, h3⟩ := scanProxmoxHost_scrub env hc sc opts errs1 errs2 id1 id2 h
    rcases hS1 : scanProxmoxHost env hc sc id1 errs1 opts with ⟨r1, e1, c1⟩
    rcases hS2 : scanProxmoxHost env hc sc id2 errs2 opts with ⟨r2, e2, c2⟩
    rw [hS1, hS2] at h1 h2 h3
    simp only at h1 h2 h3
    subst h1
    obtain ⟨g1, g2⟩ := scanHosts_scrub env sc opts rest e1 e2 id1 id2 h2
    rcases hR1 : scanHosts env sc id1 opts rest e1 with ⟨rs1, f1⟩
    rcases hR2 : scanHosts env sc id2 opts rest e2 with ⟨rs2, f2⟩
    rw [hR1, hR2] at g1 g2
    simp only at g1 g2
    simp [scanHosts, hS1, hS2, hR1, hR2, g1, g2]

theorem scanHubs_scrub (env : Env) :
    ∀ (hubs : List HaCfg) (errs1 errs2 : List ScanError) (id1 id2 : Nat),
      errs1.map scrubId = errs2.map scrubId →
      (scanHubs env id1 hubs errs1).1 = (scanHubs env id2 hubs errs2).1
      ∧ (scanHubs env id1 hubs errs1).2.map scrubId =
        (scanHubs env id2 hubs errs2).2.map scrubId
  | [], errs1, errs2, id1, id2, h => by simp [scanHubs, h]
  | ha :: rest, errs1, errs2, id1, id2, h => by
    obtain ⟨h1, h2⟩ := scanHomeassistant_scrub env ha errs1 errs2 id1 id2 h
    rcases hS1 : scanHomeassistant env ha id1 errs1 with ⟨d1, e1⟩
    rcases hS2 : scanHomeassistant env ha id2 errs2 with ⟨d2, e2⟩
    rw [hS1, hS2] at h1 h2
    simp only at h1 h2
    subst h1
    obtain ⟨g1, g2⟩ := scanHubs_scrub env rest e1 e2 id1 id2 h2
    rcases hR1 : scanHubs env id1 rest e1 with ⟨rs1, f1⟩
    rcases hR2 : scanHubs env id2 rest e2 with ⟨rs2, f2⟩
    rw [hR1, hR2] at g1 g2
    simp only at g1 g2
    simp [scanHubs, hS1, hS2, hR1, hR2, g1, g2]

theorem localDockerScan_scrub (env : Env) (errs1 errs2 : List ScanError) (id1 id2 : Nat)
    (h : errs1.map scrubId = errs2.map scrubId) :
    (localDockerScan env id1 errs1).1 = (localDockerScan env id2 errs2).1
    ∧ (localDockerScan env id1 errs1).2.map scrubId =
      (localDockerScan env id2 errs2).2.map scrubId := by
  unfold localDockerScan
  cases env.localInfoRc with
  | error e => simp [h, scrubId, localDockerError]
  | ok rc =>
    by_cases hrc : rc = 0
    · cases env.localPs with
      | error e => simp [hrc, h, scrubId, localDockerError]
      | ok out =>
        by_cases ho : pyStrip out ≠ "" <;> simp [hrc, ho, h]
    · simp [hrc, h]

/-- C9: the collection pipeline is deterministic over a fixed environment
and configuration — two runs differing only in their run identifier produce
identical record datasets and error lists that agree entry-for-entry once
the run identifier field is erased (the embedding has no other
run-dependent input; timestamps live in the ResultSink). -/
theorem claim9 (env : Env) (cfg : Config) (id1 id2 : Nat) :
    (runScan env cfg id1).1 = (runScan env cfg id2).1
    ∧ (runScan env cfg id1).2.map scrubId = (runScan env cfg id2).2.map scrubId := by
  unfold runScan
  obtain ⟨h1, h2⟩ := scanHosts_scrub env cfg.ssh_credentials
    { cfg.scan_options with skip_docker_scan := cfg.skip_docker_scan }
    cfg.proxmox_hosts [] [] id1 id2 rfl
  rcases hH1 : scanHosts env cfg.ssh_credentials id1
      { cfg.scan_options with skip_docker_scan := cfg.skip_docker_scan }
      cfg.proxmox_hosts [] with ⟨res1, e1⟩
  rcases hH2 : scanHosts env cfg.ssh_credentials id2
      { cfg.scan_options with skip_docker_scan := cfg.skip_docker_scan }
      cfg.proxmox_hosts [] with ⟨res2, e2⟩
  rw [hH1, hH2] at h1 h2
  simp only at h1 h2
  subst h1
  obtain ⟨g1, g2⟩ := scanHubs_scrub env cfg.homeassistant e1 e2 id1 id2 h2
  rcases hB1 : scanHubs env id1 cfg.homeassistant e1 with ⟨hub1, f1⟩
  rcases hB2 : scanHubs env id2 cfg.homeassistant e2 with ⟨hub2, f2⟩
  rw [hB1, hB2] at g1 g2
  simp only at g1 g2
  subst g1
  obtain ⟨l1, l2⟩ := localDockerScan_scrub env f1 f2 id1 id2 g2
  rcases hL1 : localDockerScan env id1 f1 with ⟨loc1, q1⟩
  rcases hL2 : localDockerScan env id2 f2 with ⟨loc2, q2⟩
  rw [hL1, hL2] at l1 l2
  simp only at l1 l2
  simp [hH1, hH2, hB1, hB2, hL1, hL2, l1, l2]

end SystemScan
